import Mathlib

/-!
Shallow embedding of the keep2notion sync-orchestration core.

Sources embedded:
- `src/shared/db_models.py` (SyncJob, SyncState, Credential, SyncLog rows)
- `src/shared/db_operations.py` (DatabaseOperations methods used by the
  orchestrator and the abort endpoint)
- `src/services/sync_service/orchestrator.py` (SyncOrchestrator.execute_sync,
  _fetch_notes_from_keep, _process_note)
- `src/services/sync_service/main.py` (abort_sync endpoint)

Modelling conventions:
- timestamps (`datetime`) are `Nat`; `datetime.utcnow()` is an explicit `now`
  argument threaded through the run (the source reads the clock at several
  points during one run; a single `now` per run is used, which no claim
  distinguishes);
- encryption is the identity: `get_credentials` returns the stored record
  (the EncryptionService round-trip is opaque to every claim);
- HTTP responses from the two collaborator services are inputs: a record with
  the status code and the JSON fields the orchestrator reads;
- exceptions are `Except`: an `Except.error` models a raised exception, and a
  Python `try/except` is a `match` on it;
- external calls (Keep auth, Keep notes fetch, Notion create/update, critical
  notification) are recorded in an event trace, so that "adapter X was never
  invoked" is a statement about the trace;
- auto-assigned columns no claim reads (`SyncState.id`, `SyncLog.id`,
  `created_at` server defaults) are omitted from the row records.
-/

namespace Keep2Notion

/-- Row of `sync_jobs` (db_models.py, class SyncJob). `job_id` is the primary
key. `created_at` (server default) is omitted: no claim reads it. -/
structure SyncJobRec where
  job_id : Nat
  user_id : String
  status : String
  full_sync : Bool
  total_notes : Nat
  processed_notes : Nat
  failed_notes : Nat
  error_message : Option String
  completed_at : Option Nat
deriving Repr, DecidableEq

/-- Row of `sync_state` (db_models.py, class SyncState). The autoincrement `id`
is omitted; the unique index is on (user_id, keep_note_id). -/
structure SyncStateRec where
  user_id : String
  keep_note_id : String
  notion_page_id : String
  last_synced_at : Nat
  keep_modified_at : Nat
deriving Repr, DecidableEq

/-- Row of `credentials` (db_models.py, class Credential); tokens are kept as
plain strings (encryption is opaque to the claims). -/
structure CredentialRec where
  user_id : String
  google_oauth_token : String
  notion_api_token : String
  notion_database_id : String
deriving Repr, DecidableEq

/-- Row of `sync_logs` (db_models.py, class SyncLog); `id` and `created_at`
(auto-assigned) omitted. -/
structure SyncLogRec where
  job_id : Nat
  level : String
  message : String
  keep_note_id : Option String
deriving Repr, DecidableEq

/-- The relational store: the four tables of db_models.py. -/
structure Store where
  sync_jobs : List SyncJobRec
  sync_state : List SyncStateRec
  credentials : List CredentialRec
  sync_logs : List SyncLogRec
deriving Repr, DecidableEq

/-! db_operations.py: DatabaseOperations methods. -/

/-- `get_sync_state_by_user`: all sync_state rows of a user. -/
def get_sync_state_by_user (db : Store) (user_id : String) : List SyncStateRec :=
  db.sync_state.filter (fun r => r.user_id == user_id)

/-- The WHERE clause both `get_sync_record` and the upsert conflict target use:
this row belongs to (user_id, keep_note_id). -/
def stateMatch (user_id keep_note_id : String) (r : SyncStateRec) : Bool :=
  r.user_id == user_id && r.keep_note_id == keep_note_id

/-- `get_sync_record`: the sync_state row for (user_id, keep_note_id), if any. -/
def get_sync_record (db : Store) (user_id keep_note_id : String) : Option SyncStateRec :=
  db.sync_state.find? (stateMatch user_id keep_note_id)

/-- Table-level effect of `upsert_sync_state`: on conflict with an existing
(user_id, keep_note_id) row, the notion_page_id of that row, keep_modified_at and
last_synced_at are replaced; otherwise a fresh row is inserted. -/
def upsertStateList (user_id keep_note_id notion_page_id : String)
    (keep_modified_at now : Nat) (l : List SyncStateRec) : List SyncStateRec :=
  if l.any (stateMatch user_id keep_note_id) then
    l.map (fun r =>
      if stateMatch user_id keep_note_id r then
        { r with notion_page_id := notion_page_id,
                 keep_modified_at := keep_modified_at,
                 last_synced_at := now }
      else r)
  else
    l ++ [⟨user_id, keep_note_id, notion_page_id, now, keep_modified_at⟩]

/-- `upsert_sync_state`: INSERT .. ON CONFLICT (user_id, keep_note_id) DO
UPDATE. `now` stands for the `datetime.utcnow()` written into last_synced_at. -/
def upsert_sync_state (db : Store) (user_id keep_note_id notion_page_id : String)
    (keep_modified_at now : Nat) : Store :=
  { db with sync_state :=
      upsertStateList user_id keep_note_id notion_page_id keep_modified_at now db.sync_state }

/-- `delete_sync_state`: delete one (user, note) row, or all rows of a user
when no note id is given; returns the number of rows deleted. -/
def delete_sync_state (db : Store) (user_id : String) (keep_note_id : Option String) :
    Nat × Store :=
  match keep_note_id with
  | some nid =>
      let keep := db.sync_state.filter
        (fun r => !(r.user_id == user_id && r.keep_note_id == nid))
      (db.sync_state.length - keep.length, { db with sync_state := keep })
  | none =>
      let keep := db.sync_state.filter (fun r => !(r.user_id == user_id))
      (db.sync_state.length - keep.length, { db with sync_state := keep })

/-- `get_credentials`: the credential record of a user, decrypted (decryption
modelled as the identity), or none when the user has no record. -/
def get_credentials (db : Store) (user_id : String) : Option CredentialRec :=
  db.credentials.find? (fun c => c.user_id == user_id)

/-- `create_sync_job`: plain INSERT of a fresh row with status queued and zero
counters. `job_id` is the primary key, so inserting an existing id raises an
IntegrityError, modelled as `Except.error`. -/
def create_sync_job (db : Store) (job_id : Nat) (user_id : String) (full_sync : Bool) :
    Except String Store :=
  match db.sync_jobs.find? (fun j => j.job_id == job_id) with
  | some _ => .error "IntegrityError: duplicate key value violates unique constraint on sync_jobs.job_id"
  | none => .ok { db with sync_jobs :=
      db.sync_jobs ++ [⟨job_id, user_id, "queued", full_sync, 0, 0, 0, none, none⟩] }

/-- Field application of `update_sync_job`: each keyword argument that is not
None overwrites the corresponding column. -/
def applyJobUpdate (j : SyncJobRec) (status : Option String)
    (total_notes processed_notes failed_notes : Option Nat)
    (error_message : Option String) (completed_at : Option Nat) : SyncJobRec :=
  { j with
    status := status.getD j.status,
    total_notes := total_notes.getD j.total_notes,
    processed_notes := processed_notes.getD j.processed_notes,
    failed_notes := failed_notes.getD j.failed_notes,
    error_message := match error_message with | some e => some e | none => j.error_message,
    completed_at := match completed_at with | some c => some c | none => j.completed_at }

/-- `update_sync_job`: partial update of a job row; returns None (and leaves
the store untouched) when no row has the given job_id. -/
def update_sync_job (db : Store) (job_id : Nat) (status : Option String)
    (total_notes processed_notes failed_notes : Option Nat)
    (error_message : Option String) (completed_at : Option Nat) :
    Option SyncJobRec × Store :=
  match db.sync_jobs.find? (fun j => j.job_id == job_id) with
  | none => (none, db)
  | some j =>
      let j' := applyJobUpdate j status total_notes processed_notes failed_notes
        error_message completed_at
      let db' := { db with sync_jobs := db.sync_jobs.map (fun r =>
        if r.job_id == job_id then
          applyJobUpdate r status total_notes processed_notes failed_notes
            error_message completed_at
        else r) }
      (some j', db')

/-- `get_sync_job`: the job row with the given id, if any. -/
def get_sync_job (db : Store) (job_id : Nat) : Option SyncJobRec :=
  db.sync_jobs.find? (fun j => j.job_id == job_id)

/-- `increment_sync_job_progress`: adds `processed` to processed_notes and
`failed` to failed_notes of the job row; returns None (store untouched) when
the job does not exist. In the source the parameters default to
`processed=1, failed=0`; call sites below pass the values the Python call
resolves to. -/
def increment_sync_job_progress (db : Store) (job_id : Nat) (processed failed : Nat) :
    Option SyncJobRec × Store :=
  match db.sync_jobs.find? (fun j => j.job_id == job_id) with
  | none => (none, db)
  | some j =>
      let j' := { j with processed_notes := j.processed_notes + processed,
                         failed_notes := j.failed_notes + failed }
      let db' := { db with sync_jobs := db.sync_jobs.map (fun r =>
        if r.job_id == job_id then
          { r with processed_notes := r.processed_notes + processed,
                   failed_notes := r.failed_notes + failed }
        else r) }
      (some j', db')

/-- `add_sync_log`: append one log row for a job. -/
def add_sync_log (db : Store) (job_id : Nat) (level message : String)
    (keep_note_id : Option String) : Store :=
  { db with sync_logs := db.sync_logs ++ [⟨job_id, level, message, keep_note_id⟩] }

/-! orchestrator.py: inputs for one run. -/

/-- One note dictionary of the Keep notes JSON. `id : Option String` models
presence of the `id` key: reading the id key of a note without it raises (KeyError)
before the try block of `_process_note`. `modified_at` is the already-parsed
timestamp (the isoformat round-trip is abstracted); images are kept as opaque
strings (the orchestrator only forwards them). -/
structure NoteInput where
  id : Option String
  title : String
  content : String
  created_at : String
  modified_at : Nat
  labels : List String
  images : List String
deriving Repr, DecidableEq

/-- Response of POST /internal/keep/auth: the status code and the `status` /
`error` fields of the JSON body, plus the raw text used in error messages. -/
structure AuthResponse where
  status_code : Nat
  body_status : Option String
  body_error : Option String
  text : String
deriving Repr, DecidableEq

/-- Response of GET /internal/keep/notes: the status code, the `notes` key of
the JSON body when present, and the raw text. -/
structure NotesResponse where
  status_code : Nat
  notes : Option (List NoteInput)
  text : String
deriving Repr, DecidableEq

/-- Outcome of one Notion Writer call (POST create or PATCH update): either a
response with a status code, the `page_id` of its JSON body and its text, or a
raised transport error. -/
inductive SinkOutcome where
  | resp (status_code : Nat) (page_id : String) (text : String)
  | raise (msg : String)
deriving Repr, DecidableEq

/-- Query parameters of the Keep notes request (`params` in
`_fetch_notes_from_keep`): `upload_images` is always sent true;
`modified_since` is included only when non-None; `limit` is included when the
SYNC_NOTE_LIMIT environment variable holds a valid int (the string parsing is
abstracted into an `Option Nat` input: invalid or absent becomes none). -/
structure FetchParams where
  username : String
  upload_images : Bool
  modified_since : Option Nat
  limit : Option Nat
deriving Repr, DecidableEq

/-- External calls made during a run, in order. -/
inductive Event where
  | keepAuthCall (username : String)
  | keepNotesCall (params : FetchParams)
  | sinkCreateCall (note_id : String)
  | sinkUpdateCall (page_id : String) (note_id : String)
  | notifyCritical (job_id : Nat) (user_id : String) (message : String)
      (stage : String) (full_sync : Option Bool)
deriving Repr, DecidableEq

/-- Store plus the trace of external calls. -/
structure World where
  db : Store
  events : List Event
deriving Repr, DecidableEq

/-- The external behaviour one run observes: the two Keep responses, the
Notion outcome for the i-th sink call, the parsed SYNC_NOTE_LIMIT, and the
clock value. -/
structure SyncInput where
  auth : AuthResponse
  notesResp : NotesResponse
  sink : Nat → SinkOutcome
  note_limit : Option Nat
  now : Nat

/-- Result dictionary of `_process_note`. -/
inductive NoteResult where
  | success (note_id notion_page_id : String)
  | failed (note_id error : String)
deriving Repr, DecidableEq

/-- Result dictionary of `execute_sync`: the completed summary or the failed
dictionary with its error string. -/
inductive SyncResult where
  | completed (job_id total_notes processed_notes failed_notes : Nat)
  | failedRun (job_id : Nat) (error : String)
deriving Repr, DecidableEq

/-! orchestrator.py: the orchestration functions. -/

/-- Lower bound of the fetch window, as computed at the top of step 2 of
`execute_sync`: None for a full sync; otherwise the max of last_synced_at over
the sync_state rows of the user, or None when the user has none. -/
def compute_modified_since (db : Store) (user_id : String) (full_sync : Bool) : Option Nat :=
  if full_sync then none
  else
    match get_sync_state_by_user db user_id with
    | [] => none
    | r :: rs => some ((rs.map (fun s => s.last_synced_at)).foldl Nat.max r.last_synced_at)

/-- The params dict built in `_fetch_notes_from_keep`. -/
def keep_fetch_params (username : String) (modified_since : Option Nat)
    (note_limit : Option Nat) : FetchParams :=
  ⟨username, true, modified_since, note_limit⟩

/-- `_fetch_notes_from_keep`: auth against Keep, then fetch notes. An
`Except.error` is a raised exception (carrying the world as of the raise);
the Keep auth call and, if reached, the notes call are recorded as events.
A 200 notes response whose body lacks the `notes` key yields the empty
list (`notes_data.get` with default `[]`). -/
def fetch_notes_from_keep (w : World) (username : String)
    (modified_since : Option Nat) (inp : SyncInput) :
    Except (String × World) (List NoteInput × World) :=
  let w1 : World := ⟨w.db, w.events ++ [Event.keepAuthCall username]⟩
  if inp.auth.status_code != 200 then
    .error ("Keep authentication failed: " ++ inp.auth.text, w1)
  else if inp.auth.body_status != some "authenticated" then
    .error ("Keep authentication failed: " ++ (inp.auth.body_error.getD "Unknown error"), w1)
  else
    let params := keep_fetch_params username modified_since inp.note_limit
    let w2 : World := ⟨w1.db, w1.events ++ [Event.keepNotesCall params]⟩
    if inp.notesResp.status_code != 200 then
      .error ("Failed to fetch notes from Keep: " ++ inp.notesResp.text, w2)
    else
      .ok (inp.notesResp.notes.getD [], w2)

/-- `_process_note`: create or update the Notion page for one note and upsert
sync state on success. The `Except.error` case is the KeyError raised by
reading the id key before the try block; every failure inside the try block is
caught there and returned as a failed result, after an ERROR log. -/
def process_note (w : World) (job_id : Nat) (user_id : String) (note : NoteInput)
    (outcome : SinkOutcome) (now : Nat) : Except String (NoteResult × World) :=
  match note.id with
  | none => .error "KeyError: id"
  | some note_id =>
    let existing := get_sync_record w.db user_id note_id
    -- the sink call is attempted (and recorded) whether or not it succeeds
    let evs := match existing with
      | some ex => w.events ++ [Event.sinkUpdateCall ex.notion_page_id note_id]
      | none => w.events ++ [Event.sinkCreateCall note_id]
    -- PATCH (update, expects 200) when a mapping exists, POST (create,
    -- expects 201) otherwise; a non-success code raises inside the try block
    let sinkRes : Except String String :=
      match existing, outcome with
      | _, .raise msg => .error msg
      | some _, .resp code pid text =>
          if code != 200 then .error ("Failed to update Notion page: " ++ text) else .ok pid
      | none, .resp code pid text =>
          if code != 201 then .error ("Failed to create Notion page: " ++ text) else .ok pid
    match sinkRes with
    | .ok notion_page_id =>
        let db := upsert_sync_state w.db user_id note_id notion_page_id note.modified_at now
        let db := add_sync_log db job_id "INFO"
          ("Successfully synced note " ++ note_id ++ " to Notion page " ++ notion_page_id)
          (some note_id)
        .ok (NoteResult.success note_id notion_page_id, ⟨db, evs⟩)
    | .error msg =>
        let db := add_sync_log w.db job_id "ERROR"
          ("Failed to process note " ++ note_id ++ ": " ++ msg) (some note_id)
        .ok (NoteResult.failed note_id msg, ⟨db, evs⟩)

/-- One iteration of the per-note loop of `execute_sync` (step 4-6): call
`_process_note`, tally the local counters, and increment the durable progress
counters. When `_process_note` itself raises, the except branch logs an ERROR
and calls `increment_sync_job_progress(job_id, failed=1)` — in the source
`processed` then defaults to 1, so both counters are incremented. Returns the
local (processed, failed) contribution of this note. -/
def process_one (w : World) (job_id : Nat) (user_id : String) (note : NoteInput)
    (outcome : SinkOutcome) (now : Nat) : Nat × Nat × World :=
  match process_note w job_id user_id note outcome now with
  | .ok (NoteResult.success _ _, w') =>
      let db := (increment_sync_job_progress w'.db job_id 1 0).2
      (1, 0, ⟨db, w'.events⟩)
  | .ok (NoteResult.failed _ _, w') =>
      let db := (increment_sync_job_progress w'.db job_id 0 1).2
      (0, 1, ⟨db, w'.events⟩)
  | .error e =>
      let db := add_sync_log w.db job_id "ERROR"
        ("Failed to process note " ++ (note.id.getD "unknown") ++ ": " ++ e) note.id
      let db := (increment_sync_job_progress db job_id 1 1).2
      (0, 1, ⟨db, w.events⟩)

/-- The per-note loop of `execute_sync`: fold `process_one` over the fetched
notes, the i-th note receiving the i-th sink outcome, summing the local
counters. -/
def process_all (w : World) (job_id : Nat) (user_id : String) (notes : List NoteInput)
    (sink : Nat → SinkOutcome) (now : Nat) (i : Nat) : Nat × Nat × World :=
  match notes with
  | [] => (0, 0, w)
  | note :: rest =>
      let r1 := process_one w job_id user_id note (sink i) now
      let r2 := process_all r1.2.2 job_id user_id rest sink now (i + 1)
      (r1.1 + r2.1, r1.2.1 + r2.2.1, r2.2.2)

/-- Steps of `execute_sync` before its try block: create the job row
(queued), flip it to running, write the start log. Raises (Except.error) only
when `create_sync_job` hits a duplicate job_id. -/
def sync_prelude (db : Store) (job_id : Nat) (user_id : String) (full_sync : Bool) :
    Except String Store :=
  match create_sync_job db job_id user_id full_sync with
  | .error e => .error e
  | .ok db1 =>
      let db2 := (update_sync_job db1 job_id (some "running") none none none none none).2
      .ok (add_sync_log db2 job_id "INFO" ("Starting sync for user " ++ user_id) none)

/-- The missing-credentials branch of step 1: finalize the job as failed with
a descriptive error, log it, and emit the critical-error notification with
stage credential_loading. -/
def sync_cred_fail (w : World) (job_id : Nat) (user_id : String) (now : Nat) :
    SyncResult × World :=
  let error_msg := "No credentials found for user " ++ user_id
  let db := (update_sync_job w.db job_id (some "failed") none none none
    (some error_msg) (some now)).2
  let db := add_sync_log db job_id "ERROR" error_msg none
  (SyncResult.failedRun job_id error_msg,
   ⟨db, w.events ++ [Event.notifyCritical job_id user_id error_msg "credential_loading" none]⟩)

/-- Steps 5-7 of `execute_sync`, after a successful fetch: record
total_notes, log the fetch, run the per-note loop, finalize the job as
completed, log the summary, and return the completed summary built from the
local counters of the loop. -/
def sync_notes_phase (w1 : World) (job_id : Nat) (user_id : String)
    (notes : List NoteInput) (sink : Nat → SinkOutcome) (now : Nat) :
    SyncResult × World :=
  let total_notes := notes.length
  let db := (update_sync_job w1.db job_id none (some total_notes) none none none none).2
  let db := add_sync_log db job_id "INFO"
    ("Fetched " ++ toString total_notes ++ " notes from Keep") none
  let r := process_all ⟨db, w1.events⟩ job_id user_id notes sink now 0
  let db2 := (update_sync_job r.2.2.db job_id (some "completed") none none none
    none (some now)).2
  let db2 := add_sync_log db2 job_id "INFO"
    ("Sync completed: " ++ toString r.1 ++ " processed, "
      ++ toString r.2.1 ++ " failed") none
  (SyncResult.completed job_id total_notes r.1 r.2.1, ⟨db2, r.2.2.events⟩)

/-- Body of the try block of `execute_sync` (steps 1-7): credential load,
incremental-window computation, fetch log, fetch, then the notes phase.
`Except.error` carries an exception escaping to the top-level handler
together with the world as of the raise. -/
def sync_try_body (w : World) (job_id : Nat) (user_id : String) (full_sync : Bool)
    (inp : SyncInput) : Except (String × World) (SyncResult × World) :=
  match get_credentials w.db user_id with
  | none => .ok (sync_cred_fail w job_id user_id inp.now)
  | some credentials =>
      let modified_since := compute_modified_since w.db user_id full_sync
      let db := add_sync_log w.db job_id "INFO"
        ("Fetching notes from Keep (modified_since=" ++ toString modified_since ++ ")") none
      match fetch_notes_from_keep ⟨db, w.events⟩ credentials.user_id modified_since inp with
      | .error ew => .error ew
      | .ok (notes, w1) =>
          .ok (sync_notes_phase w1 job_id user_id notes inp.sink inp.now)

/-- The top-level except handler of `execute_sync` (step 8): finalize the job
as failed, log, and notify with stage sync_execution and the full_sync flag. -/
def sync_handler (w : World) (job_id : Nat) (user_id : String) (full_sync : Bool)
    (now : Nat) (error_msg : String) : SyncResult × World :=
  let db := (update_sync_job w.db job_id (some "failed") none none none
    (some error_msg) (some now)).2
  let db := add_sync_log db job_id "ERROR" ("Sync failed: " ++ error_msg) none
  (SyncResult.failedRun job_id error_msg,
   ⟨db, w.events ++ [Event.notifyCritical job_id user_id error_msg "sync_execution" (some full_sync)]⟩)

/-- `execute_sync`: the prelude (create queued, flip to running, start log),
then the try body; any exception escaping the try body goes to the top-level
handler. The outer `Except.error` is an exception escaping `execute_sync`
itself: only a duplicate job_id in the prelude can raise it. -/
def execute_sync (w : World) (job_id : Nat) (user_id : String) (full_sync : Bool)
    (inp : SyncInput) : Except String (SyncResult × World) :=
  match sync_prelude w.db job_id user_id full_sync with
  | .error e => .error e
  | .ok db =>
      match sync_try_body ⟨db, w.events⟩ job_id user_id full_sync inp with
      | .ok rw => .ok rw
      | .error (error_msg, w') =>
          .ok (sync_handler w' job_id user_id full_sync inp.now error_msg)

/-! main.py: the abort endpoint. -/

/-- Result of POST /internal/sync/abort: 404 for an unknown job, 400 with a
detail naming the current status for a terminal job, confirmation otherwise.
(The UUID-format check of the endpoint is outside the model: job ids are
already parsed.) -/
inductive AbortResult where
  | notFound (job_id : Nat)
  | invalidState (current_status : String)
  | ok (job_id : Nat)
deriving Repr, DecidableEq

/-- Detail string of the 400 response for aborting a terminal job; the source
quotes the status value, the quotes are dropped here. -/
def abort_error_detail (current_status : String) : String :=
  "Cannot abort job with status " ++ current_status

/-- `abort_sync` (main.py): guard on the current status, then mark the job
cancelled with completed_at and an error_message, and append a WARNING log. -/
def abort_sync (db : Store) (job_id : Nat) (now : Nat) : AbortResult × Store :=
  match get_sync_job db job_id with
  | none => (AbortResult.notFound job_id, db)
  | some sync_job =>
      if ["completed", "failed", "cancelled"].contains sync_job.status then
        (AbortResult.invalidState sync_job.status, db)
      else
        let db := (update_sync_job db job_id (some "cancelled") none none none
          (some "Job cancelled by user") (some now)).2
        let db := add_sync_log db job_id "WARNING" "Sync job cancelled by user" none
        (AbortResult.ok job_id, db)

/-! Derived definitions used to state the claims. -/

/-- A sequence of `upsert_sync_state` calls for one (user, note) pair, each
call giving (notion_page_id, keep_modified_at, now). -/
def upsertCalls (db : Store) (user_id keep_note_id : String) :
    List (String × Nat × Nat) → Store
  | [] => db
  | (p, m, t) :: rest =>
      upsertCalls (upsert_sync_state db user_id keep_note_id p m t) user_id keep_note_id rest

/-- The last element of `c :: calls`. -/
def lastCall (c : String × Nat × Nat) : List (String × Nat × Nat) → String × Nat × Nat
  | [] => c
  | c' :: rest => lastCall c' rest

/-- Whether one Notion create call (POST, fresh note) succeeds: the sink
responded with status code 201. -/
def createSuccess : SinkOutcome → Bool
  | .resp code _ _ => code == 201
  | .raise _ => false

/-- The sync_state rows a run over `notes` (all without prior state, the i-th
getting the i-th sink outcome) is expected to insert: one row per note whose
create call succeeded. -/
def expectedNewRows (user_id : String) (now : Nat) (sink : Nat → SinkOutcome) :
    Nat → List NoteInput → List SyncStateRec
  | _, [] => []
  | i, note :: rest =>
      match sink i, note.id with
      | .resp code pid _, some nid =>
          if code == 201 then
            ⟨user_id, nid, pid, now, note.modified_at⟩ ::
              expectedNewRows user_id now sink (i + 1) rest
          else expectedNewRows user_id now sink (i + 1) rest
      | _, _ => expectedNewRows user_id now sink (i + 1) rest

/-- Number of create successes among the sink outcomes for positions
i, i+1, ..., i+n-1. -/
def numCreateSuccesses (sink : Nat → SinkOutcome) (i : Nat) : Nat → Nat
  | 0 => 0
  | n + 1 => (if createSuccess (sink i) then 1 else 0) + numCreateSuccesses sink (i + 1) n

/-- Number of create failures among the sink outcomes for positions
i, i+1, ..., i+n-1. -/
def numCreateFailures (sink : Nat → SinkOutcome) (i : Nat) : Nat → Nat
  | 0 => 0
  | n + 1 => (if createSuccess (sink i) then 0 else 1) + numCreateFailures sink (i + 1) n

/-- Whether an event is a Page Sink (Notion Writer) call. -/
def isSinkCall : Event → Bool
  | .sinkCreateCall _ => true
  | .sinkUpdateCall _ _ => true
  | _ => false

/-- Whether an event is the Keep notes fetch call. -/
def isNotesCall : Event → Bool
  | .keepNotesCall _ => true
  | _ => false

/-! Interleaving scenario for the job-lifecycle claim: `execute_sync`
suspends at every awaited HTTP call, and the abort endpoint may run in full
during such a suspension. The steps below are exactly the store operations
`execute_sync` performs (in program order, as defined above) for job 7 of
user carol with full_sync = true, with `abort_sync` executed during the
await of the Keep notes request; the notes response then arrives (200,
empty list) and `execute_sync` continues to completion. -/

/-- Initial store for the interleaving scenario: carol has credentials, no
jobs, no sync state. -/
def c3_db0 : Store := ⟨[], [], [⟨"carol", "gtok", "ntok", "dbid"⟩], []⟩

/-- Store state of the interleaving scenario at the moment `execute_sync` is
suspended on the awaited Keep notes request: job created (queued), flipped to
running, the two INFO logs written. These are the operations `execute_sync`
performs before that await, in program order. -/
def c3_db_preAbort : Store :=
  let db := (create_sync_job c3_db0 7 "carol" true).toOption.getD c3_db0
  let db := (update_sync_job db 7 (some "running") none none none none none).2
  let db := add_sync_log db 7 "INFO" "Starting sync for user carol" none
  let db := add_sync_log db 7 "INFO" "Fetching notes from Keep (modified_since=none)" none
  db

/-- Store after the abort endpoint runs (atomically) during that suspension. -/
def c3_db_afterAbort : Store := (abort_sync c3_db_preAbort 7 50).2

/-- Store after `execute_sync` resumes with the notes response (200, empty
list) and finishes: total_notes write, log, empty per-note loop, completed
finalization, summary log — again exactly its remaining operations in
program order. -/
def c3_db_final : Store :=
  let db := (update_sync_job c3_db_afterAbort 7 none (some 0) none none none none).2
  let db := add_sync_log db 7 "INFO" "Fetched 0 notes from Keep" none
  let db := (update_sync_job db 7 (some "completed") none none none none (some 60)).2
  let db := add_sync_log db 7 "INFO" "Sync completed: 0 processed, 0 failed" none
  db

/-! Concrete scenarios used by witnesses and counterexample evaluations. -/

/-- A successful Keep auth response. -/
def authOK : AuthResponse := ⟨200, some "authenticated", none, ""⟩

/-- World with credentials for alice and nothing else. -/
def wAlice : World := ⟨⟨[], [], [⟨"alice", "gtok", "ntok", "dbid"⟩], []⟩, []⟩

/-- Two well-formed notes. -/
def c1_notes : List NoteInput :=
  [⟨some "n1", "t1", "c1", "2024", 5, [], []⟩,
   ⟨some "n2", "t2", "c2", "2024", 7, [], []⟩]

/-- A sink that creates the first note and times out on the second. -/
def c1_sink : Nat → SinkOutcome :=
  fun i => if i == 0 then SinkOutcome.resp 201 "pA" "" else SinkOutcome.raise "timeout"

/-- Input for the C1 witness run. -/
def c1_inp : SyncInput := ⟨authOK, ⟨200, some c1_notes, ""⟩, c1_sink, none, 100⟩

/-- World for the C5 witness: alice has two SyncState rows with
last_synced_at 30 and 40. -/
def c5_w : World :=
  ⟨⟨[], [⟨"alice", "n1", "p1", 30, 5⟩, ⟨"alice", "n2", "p2", 40, 6⟩],
    [⟨"alice", "gtok", "ntok", "dbid"⟩], []⟩, []⟩

/-- Input for the C5 witness run. -/
def c5_inp : SyncInput := ⟨authOK, ⟨200, none, ""⟩, fun _ => SinkOutcome.raise "x", none, 99⟩

/-- Input for the C10 witness: HTTP 200 whose JSON body lacks the notes key. -/
def c10_inp : SyncInput :=
  ⟨authOK, ⟨200, none, "irrelevant"⟩, fun _ => SinkOutcome.raise "x", none, 42⟩

/-- World for the C6 failing input: dave has credentials, nothing else. -/
def c6_w : World := ⟨⟨[], [], [⟨"dave", "gtok", "ntok", "dbid"⟩], []⟩, []⟩

/-- The C6 failing input: a single fetched note whose dict lacks the id key. -/
def c6_inp : SyncInput :=
  ⟨authOK, ⟨200, some [⟨none, "t", "c", "2024", 9, [], []⟩], ""⟩,
   fun _ => SinkOutcome.resp 201 "p" "", none, 100⟩

/-! Helper lemmas about the store operations. -/

/-- Key of a sync_state row, the pair the unique index is on. -/
def stateKey (r : SyncStateRec) : String × String := (r.user_id, r.keep_note_id)

/-- The (user_id, keep_note_id) uniqueness invariant of the sync_state table. -/
def stateKeysUnique (db : Store) : Prop := (db.sync_state.map stateKey).Nodup

lemma add_sync_log_sync_jobs (db : Store) (j : Nat) (l m : String) (k : Option String) :
    (add_sync_log db j l m k).sync_jobs = db.sync_jobs := rfl

lemma add_sync_log_sync_state (db : Store) (j : Nat) (l m : String) (k : Option String) :
    (add_sync_log db j l m k).sync_state = db.sync_state := rfl

lemma add_sync_log_credentials (db : Store) (j : Nat) (l m : String) (k : Option String) :
    (add_sync_log db j l m k).credentials = db.credentials := rfl

lemma upsert_sync_jobs (db : Store) (u n p : String) (m t : Nat) :
    (upsert_sync_state db u n p m t).sync_jobs = db.sync_jobs := rfl

lemma update_sync_job_sync_state (db : Store) (i : Nat) (s : Option String)
    (t p f : Option Nat) (e : Option String) (c : Option Nat) :
    (update_sync_job db i s t p f e c).2.sync_state = db.sync_state := by
  unfold update_sync_job
  cases db.sync_jobs.find? (fun j => j.job_id == i) <;> rfl

lemma update_sync_job_sync_logs (db : Store) (i : Nat) (s : Option String)
    (t p f : Option Nat) (e : Option String) (c : Option Nat) :
    (update_sync_job db i s t p f e c).2.sync_logs = db.sync_logs := by
  unfold update_sync_job
  cases db.sync_jobs.find? (fun j => j.job_id == i) <;> rfl

lemma update_sync_job_credentials (db : Store) (i : Nat) (s : Option String)
    (t p f : Option Nat) (e : Option String) (c : Option Nat) :
    (update_sync_job db i s t p f e c).2.credentials = db.credentials := by
  unfold update_sync_job
  cases db.sync_jobs.find? (fun j => j.job_id == i) <;> rfl

lemma increment_sync_state (db : Store) (i p f : Nat) :
    (increment_sync_job_progress db i p f).2.sync_state = db.sync_state := by
  unfold increment_sync_job_progress
  cases db.sync_jobs.find? (fun j => j.job_id == i) <;> rfl

lemma increment_sync_logs (db : Store) (i p f : Nat) :
    (increment_sync_job_progress db i p f).2.sync_logs = db.sync_logs := by
  unfold increment_sync_job_progress
  cases db.sync_jobs.find? (fun j => j.job_id == i) <;> rfl

lemma increment_credentials (db : Store) (i p f : Nat) :
    (increment_sync_job_progress db i p f).2.credentials = db.credentials := by
  unfold increment_sync_job_progress
  cases db.sync_jobs.find? (fun j => j.job_id == i) <;> rfl

/-- find? over a job list rewritten row-wise at one job_id, for a rewrite that
keeps the job_id. -/
lemma find?_job_map (l : List SyncJobRec) (i : Nat) (g : SyncJobRec → SyncJobRec)
    (hg : ∀ j, (g j).job_id = j.job_id) :
    (l.map (fun r => if r.job_id == i then g r else r)).find? (fun j => j.job_id == i)
      = (l.find? (fun j => j.job_id == i)).map g := by
  induction l with
  | nil => rfl
  | cons r rs ih =>
    simp only [List.map_cons, List.find?_cons]
    by_cases h : r.job_id = i
    · have hb : (r.job_id == i) = true := by simp [h]
      have hgb : ((g r).job_id == i) = true := by simp [hg r, h]
      have hif : (if (r.job_id == i) = true then g r else r) = g r := by rw [hb]; simp
      rw [hif, hgb, hb]
      rfl
    · have hb : (r.job_id == i) = false := by simp [h]
      have hif : (if (r.job_id == i) = true then g r else r) = r := by rw [hb]; simp
      rw [hif, hb]
      exact ih

lemma get_sync_job_update (db : Store) (i : Nat) (s : Option String)
    (t p f : Option Nat) (e : Option String) (c : Option Nat) :
    get_sync_job (update_sync_job db i s t p f e c).2 i
      = (get_sync_job db i).map (fun j => applyJobUpdate j s t p f e c) := by
  unfold get_sync_job update_sync_job
  cases hf : db.sync_jobs.find? (fun j => j.job_id == i) with
  | none => simp [hf]
  | some j =>
    simp only [hf]
    rw [find?_job_map db.sync_jobs i (fun j => applyJobUpdate j s t p f e c) (fun _ => rfl), hf]

lemma get_sync_job_increment (db : Store) (i p f : Nat) :
    get_sync_job (increment_sync_job_progress db i p f).2 i
      = (get_sync_job db i).map (fun j =>
          { j with processed_notes := j.processed_notes + p,
                   failed_notes := j.failed_notes + f }) := by
  unfold get_sync_job increment_sync_job_progress
  cases hf : db.sync_jobs.find? (fun j => j.job_id == i) with
  | none => simp [hf]
  | some j =>
    simp only [hf]
    rw [find?_job_map db.sync_jobs i (fun j =>
      { j with processed_notes := j.processed_notes + p,
               failed_notes := j.failed_notes + f }) (fun _ => rfl), hf]

lemma get_sync_job_add_log (db : Store) (j : Nat) (l m : String) (k : Option String)
    (i : Nat) : get_sync_job (add_sync_log db j l m k) i = get_sync_job db i := rfl

lemma get_sync_job_upsert (db : Store) (u n p : String) (m t : Nat) (i : Nat) :
    get_sync_job (upsert_sync_state db u n p m t) i = get_sync_job db i := by
  unfold get_sync_job; rw [upsert_sync_jobs]

lemma get_sync_job_create (db : Store) (i : Nat) (u : String) (fs : Bool) (db' : Store)
    (h : create_sync_job db i u fs = .ok db') :
    get_sync_job db' i = some ⟨i, u, "queued", fs, 0, 0, 0, none, none⟩ := by
  unfold create_sync_job at h
  cases hf : db.sync_jobs.find? (fun j => j.job_id == i) with
  | some j => rw [hf] at h; cases h
  | none =>
    rw [hf] at h
    cases h
    unfold get_sync_job
    rw [List.find?_append, hf]
    simp [List.find?]

/-! Lemmas about sync_state and the upsert. -/

lemma stateMatch_iff (u n : String) (r : SyncStateRec) :
    stateMatch u n r = true ↔ r.user_id = u ∧ r.keep_note_id = n := by
  simp [stateMatch]

lemma stateMatch_false (u n : String) (r : SyncStateRec) (h : stateMatch u n r = false) :
    stateKey r ≠ (u, n) := by
  intro hk
  have : r.user_id = u ∧ r.keep_note_id = n := by
    unfold stateKey at hk
    exact ⟨congrArg Prod.fst hk, congrArg Prod.snd hk⟩
  rw [(stateMatch_iff u n r).mpr this] at h
  cases h

lemma map_state_id (u n p : String) (m t : Nat) (l : List SyncStateRec)
    (h : ∀ r ∈ l, stateMatch u n r = false) :
    l.map (fun r => if stateMatch u n r then
      { r with notion_page_id := p, keep_modified_at := m, last_synced_at := t }
      else r) = l := by
  induction l with
  | nil => rfl
  | cons r rs ih =>
    have hr := h r (by simp)
    rw [List.map_cons, if_neg (by rw [hr]; decide),
      ih (fun r' hr' => h r' (by simp [hr']))]

lemma filter_state_nil (u n : String) (l : List SyncStateRec)
    (h : ∀ r ∈ l, stateMatch u n r = false) :
    l.filter (stateMatch u n) = [] := by
  induction l with
  | nil => rfl
  | cons r rs ih =>
    rw [List.filter_cons, if_neg (by rw [h r (by simp)]; decide),
      ih (fun r' hr' => h r' (by simp [hr']))]

lemma upsertStateList_filter (u n p : String) (m t : Nat) (l : List SyncStateRec)
    (hU : (l.map stateKey).Nodup) :
    (upsertStateList u n p m t l).filter (stateMatch u n) = [⟨u, n, p, t, m⟩] := by
  induction l with
  | nil =>
    simp [upsertStateList, List.filter_cons, stateMatch]
  | cons r rs ih =>
    rw [List.map_cons, List.nodup_cons] at hU
    obtain ⟨hnotin, hUtail⟩ := hU
    cases hm : stateMatch u n r with
    | true =>
      obtain ⟨hru, hrn⟩ := (stateMatch_iff u n r).mp hm
      have hall : ∀ r' ∈ rs, stateMatch u n r' = false := by
        intro r' hr'
        cases hm' : stateMatch u n r' with
        | false => rfl
        | true =>
          obtain ⟨hru', hrn'⟩ := (stateMatch_iff u n r').mp hm'
          exfalso
          refine hnotin ?_
          have : stateKey r' = stateKey r := by
            unfold stateKey; rw [hru, hrn, hru', hrn']
          rw [← this]
          exact List.mem_map_of_mem stateKey hr'
      have hany : (r :: rs).any (stateMatch u n) = true := by
        rw [List.any_cons, hm]; rfl
      unfold upsertStateList
      rw [hany, if_pos rfl, List.map_cons, if_pos hm, List.filter_cons]
      rw [if_pos ((stateMatch_iff u n ⟨r.user_id, r.keep_note_id, p, t, m⟩).mpr ⟨hru, hrn⟩)]
      rw [map_state_id u n p m t rs hall, filter_state_nil u n rs hall]
      have : ({ r with notion_page_id := p, keep_modified_at := m, last_synced_at := t }
          : SyncStateRec) = ⟨u, n, p, t, m⟩ := by
        cases r
        simp only at hru hrn
        rw [hru, hrn]
      rw [this]
    | false =>
      cases hany : rs.any (stateMatch u n) with
      | true =>
        have hany' : (r :: rs).any (stateMatch u n) = true := by
          rw [List.any_cons, hm, hany]; rfl
        have ihr := ih hUtail
        unfold upsertStateList at ihr ⊢
        rw [hany, if_pos rfl] at ihr
        rw [hany', if_pos rfl, List.map_cons, if_neg (by rw [hm]; decide),
          List.filter_cons, if_neg (by rw [hm]; decide)]
        exact ihr
      | false =>
        have hany' : (r :: rs).any (stateMatch u n) = false := by
          rw [List.any_cons, hm, hany]; rfl
        have ihr := ih hUtail
        unfold upsertStateList at ihr ⊢
        rw [hany] at ihr
        rw [hany']
        simp only [Bool.false_eq_true, if_false] at ihr ⊢
        rw [List.cons_append, List.filter_cons, if_neg (by rw [hm]; decide)]
        exact ihr

lemma upsertStateList_nodup (u n p : String) (m t : Nat) (l : List SyncStateRec)
    (hU : (l.map stateKey).Nodup) :
    ((upsertStateList u n p m t l).map stateKey).Nodup := by
  unfold upsertStateList
  cases hany : l.any (stateMatch u n) with
  | true =>
    rw [if_pos rfl]
    have : (l.map (fun r => if stateMatch u n r then
        { r with notion_page_id := p, keep_modified_at := m, last_synced_at := t }
        else r)).map stateKey = l.map stateKey := by
      rw [List.map_map]
      refine List.map_congr_left ?_
      intro r _
      show stateKey (if stateMatch u n r then _ else r) = stateKey r
      cases hm : stateMatch u n r with
      | true => rw [if_pos rfl]; rfl
      | false => rw [if_neg (by decide)]
    rw [this]
    exact hU
  | false =>
    rw [if_neg (by decide), List.map_append]
    rw [List.nodup_append]
    refine ⟨hU, by simp, ?_⟩
    intro k hk hk'
    simp only [List.map_cons, List.map_nil, List.mem_singleton] at hk'
    subst hk'
    rw [List.mem_map] at hk
    obtain ⟨r, hr, hkey⟩ := hk
    have := List.any_eq_false.mp hany r hr
    exact stateMatch_false u n r (Bool.eq_false_iff.mpr this) hkey

lemma upsertCalls_filter (u n : String) : ∀ (calls : List (String × Nat × Nat))
    (c : String × Nat × Nat) (db : Store), stateKeysUnique db →
    (upsertCalls db u n (c :: calls)).sync_state.filter (stateMatch u n)
      = [⟨u, n, (lastCall c calls).1, (lastCall c calls).2.2, (lastCall c calls).2.1⟩] := by
  intro calls
  induction calls with
  | nil =>
    intro c db hU
    obtain ⟨p, m, t⟩ := c
    exact upsertStateList_filter u n p m t db.sync_state hU
  | cons c' rest ih =>
    intro c db hU
    obtain ⟨p, m, t⟩ := c
    exact ih c' (upsert_sync_state db u n p m t)
      (upsertStateList_nodup u n p m t db.sync_state hU)

/-! Claim C7. -/

/-- C7: any nonempty sequence of `upsert_sync_state` calls for one
(user_id, keep_note_id) pair leaves exactly one SyncState row for the pair,
carrying the notion_page_id, keep_modified_at and last_synced_at of the
latest call; and the (user_id, keep_note_id) uniqueness invariant is
preserved by every store operation — the upsert, the delete, and the
operations that do not touch sync_state at all. -/
theorem C7_upsert_idempotent_unique (db : Store) (u n : String) :
    (∀ c calls, stateKeysUnique db →
      (upsertCalls db u n (c :: calls)).sync_state.filter (stateMatch u n)
        = [⟨u, n, (lastCall c calls).1, (lastCall c calls).2.2, (lastCall c calls).2.1⟩]) ∧
    (∀ p m t, stateKeysUnique db → stateKeysUnique (upsert_sync_state db u n p m t)) ∧
    (∀ k, stateKeysUnique db → stateKeysUnique (delete_sync_state db u k).2) ∧
    (∀ i s tn pn fn e cc,
      (update_sync_job db i s tn pn fn e cc).2.sync_state = db.sync_state) ∧
    (∀ i pr fl, (increment_sync_job_progress db i pr fl).2.sync_state = db.sync_state) ∧
    (∀ i lv msg kid, (add_sync_log db i lv msg kid).sync_state = db.sync_state) ∧
    (∀ i uu fs db', create_sync_job db i uu fs = .ok db' → db'.sync_state = db.sync_state) := by
  refine ⟨fun c calls hU => upsertCalls_filter u n calls c db hU,
    fun p m t hU => upsertStateList_nodup u n p m t db.sync_state hU,
    fun k hU => ?_,
    fun i s tn pn fn e cc => update_sync_job_sync_state db i s tn pn fn e cc,
    fun i pr fl => increment_sync_state db i pr fl,
    fun i lv msg kid => rfl,
    fun i uu fs db' h => ?_⟩
  · cases k with
    | some nid =>
      exact List.Nodup.sublist
        (List.Sublist.map stateKey (List.filter_sublist db.sync_state)) hU
    | none =>
      exact List.Nodup.sublist
        (List.Sublist.map stateKey (List.filter_sublist db.sync_state)) hU
  · unfold create_sync_job at h
    cases hf : db.sync_jobs.find? (fun j => j.job_id == i) with
    | some j => rw [hf] at h; cases h
    | none => rw [hf] at h; cases h; rfl

/-- C7 witness: two upserts for (alice, n1) with different page values on the
empty store leave exactly one row, holding the values of the second call. -/
theorem C7_witness :
    stateKeysUnique ⟨[], [], [], []⟩ ∧
    (upsertCalls ⟨[], [], [], []⟩ "alice" "n1"
        [("pA", 5, 10), ("pB", 6, 20)]).sync_state.filter (stateMatch "alice" "n1")
      = [⟨"alice", "n1", "pB", 20, 6⟩] := by
  have h := (C7_upsert_idempotent_unique ⟨[], [], [], []⟩ "alice" "n1").1
    ("pA", 5, 10) [("pB", 6, 20)] List.Pairwise.nil
  exact ⟨List.Pairwise.nil, h⟩

/-! Claim C9. -/

/-- C9: for a job_id with no SyncJob row, `update_sync_job` and
`increment_sync_job_progress` return None, raise nothing, and leave the store
unchanged: a write addressed to a nonexistent job is a silent no-op. -/
theorem C9_missing_job_silent_noop (db : Store) (job_id : Nat) (s : Option String)
    (t p f : Option Nat) (e : Option String) (c : Option Nat) (pr fl : Nat)
    (h : get_sync_job db job_id = none) :
    update_sync_job db job_id s t p f e c = (none, db) ∧
    increment_sync_job_progress db job_id pr fl = (none, db) := by
  have h' : db.sync_jobs.find? (fun j => j.job_id == job_id) = none := h
  constructor
  · unfold update_sync_job; rw [h']
  · unfold increment_sync_job_progress; rw [h']

/-- C9 witness: the empty store has no job 0, and both writes are no-ops. -/
theorem C9_witness :
    get_sync_job ⟨[], [], [], []⟩ 0 = none ∧
    update_sync_job ⟨[], [], [], []⟩ 0 (some "running") (some 5) none none none none
      = (none, ⟨[], [], [], []⟩) ∧
    increment_sync_job_progress ⟨[], [], [], []⟩ 0 1 0 = (none, ⟨[], [], [], []⟩) := by
  have h := C9_missing_job_silent_noop ⟨[], [], [], []⟩ 0 (some "running") (some 5)
    none none none none 1 0 rfl
  exact ⟨rfl, h.1, h.2⟩

/-! Claim C8. -/

/-- C8 counterexample: `create_sync_job` on a store that already holds job 5
does not succeed idempotently — it raises a uniqueness violation (job_id is
the primary key and the operation is a plain INSERT). -/
theorem C8_counterexample :
    create_sync_job ⟨[⟨5, "erin", "queued", false, 0, 0, 0, none, none⟩], [], [], []⟩
        5 "erin" false
      = .error "IntegrityError: duplicate key value violates unique constraint on sync_jobs.job_id" := rfl

/-- C8 (amended): `create_sync_job` is not idempotent on job_id: with a fresh
job_id it inserts exactly one queued row with zero counters; with an existing
job_id it raises a uniqueness violation (the store is left unchanged, since
the failed INSERT commits nothing). -/
theorem C8_create_not_idempotent (db : Store) (job_id : Nat) (u : String) (fs : Bool) :
    (get_sync_job db job_id = none →
      create_sync_job db job_id u fs =
        .ok { db with sync_jobs :=
          db.sync_jobs ++ [⟨job_id, u, "queued", fs, 0, 0, 0, none, none⟩] }) ∧
    (∀ r, get_sync_job db job_id = some r →
      create_sync_job db job_id u fs =
        .error "IntegrityError: duplicate key value violates unique constraint on sync_jobs.job_id") := by
  constructor
  · intro h
    have h' : db.sync_jobs.find? (fun j => j.job_id == job_id) = none := h
    unfold create_sync_job; rw [h']
  · intro r h
    have h' : db.sync_jobs.find? (fun j => j.job_id == job_id) = some r := h
    unfold create_sync_job; rw [h']

/-- C8 witness: creating job 5 in the empty store succeeds; creating it again
on the resulting store fails. -/
theorem C8_witness :
    create_sync_job ⟨[], [], [], []⟩ 5 "erin" false
      = .ok ⟨[⟨5, "erin", "queued", false, 0, 0, 0, none, none⟩], [], [], []⟩ ∧
    create_sync_job ⟨[⟨5, "erin", "queued", false, 0, 0, 0, none, none⟩], [], [], []⟩
        5 "erin" true
      = .error "IntegrityError: duplicate key value violates unique constraint on sync_jobs.job_id" := by
  have h1 := C8_create_not_idempotent ⟨[], [], [], []⟩ 5 "erin" false
  have h2 := C8_create_not_idempotent
    ⟨[⟨5, "erin", "queued", false, 0, 0, 0, none, none⟩], [], [], []⟩ 5 "erin" true
  exact ⟨h1.1 rfl, h2.2 _ rfl⟩

/-! Claim C4. -/

/-- C4: `abort_sync` on a job whose status is completed, failed or cancelled
fails with an invalid-state error carrying the current status (the detail
message includes it) and leaves the store unchanged; on a queued or running
job it sets status=cancelled, completed_at, error_message = Job cancelled by
user, and appends a WARNING log entry. -/
theorem C4_abort_guard (db : Store) (job_id now : Nat) (j : SyncJobRec)
    (h : get_sync_job db job_id = some j) :
    ((j.status = "completed" ∨ j.status = "failed" ∨ j.status = "cancelled") →
      abort_sync db job_id now = (AbortResult.invalidState j.status, db) ∧
      abort_error_detail j.status = "Cannot abort job with status " ++ j.status) ∧
    ((j.status = "queued" ∨ j.status = "running") →
      (abort_sync db job_id now).1 = AbortResult.ok job_id ∧
      get_sync_job (abort_sync db job_id now).2 job_id =
        some { j with status := "cancelled",
                      error_message := some "Job cancelled by user",
                      completed_at := some now } ∧
      (abort_sync db job_id now).2.sync_logs =
        db.sync_logs ++ [⟨job_id, "WARNING", "Sync job cancelled by user", none⟩]) := by
  have hred : abort_sync db job_id now =
      (if ["completed", "failed", "cancelled"].contains j.status then
        (AbortResult.invalidState j.status, db)
      else
        (AbortResult.ok job_id,
         add_sync_log (update_sync_job db job_id (some "cancelled") none none none
           (some "Job cancelled by user") (some now)).2
           job_id "WARNING" "Sync job cancelled by user" none)) := by
    unfold abort_sync
    rw [h]
  constructor
  · intro hs
    have hc : (["completed", "failed", "cancelled"].contains j.status) = true := by
      rcases hs with hs | hs | hs <;> rw [hs] <;> rfl
    constructor
    · rw [hred, if_pos hc]
    · rfl
  · intro hs
    have hc : (["completed", "failed", "cancelled"].contains j.status) = false := by
      rcases hs with hs | hs <;> rw [hs] <;> rfl
    have hcn : ¬ ((["completed", "failed", "cancelled"].contains j.status) = true) := by
      rw [hc]; decide
    have habort : abort_sync db job_id now =
        (AbortResult.ok job_id,
         add_sync_log (update_sync_job db job_id (some "cancelled") none none none
           (some "Job cancelled by user") (some now)).2
           job_id "WARNING" "Sync job cancelled by user" none) := by
      rw [hred, if_neg hcn]
    refine ⟨by rw [habort], ?_, ?_⟩
    · rw [habort]
      show get_sync_job (add_sync_log _ _ _ _ _) job_id = _
      rw [get_sync_job_add_log, get_sync_job_update, h]
      rfl
    · rw [habort]
      show (add_sync_log _ _ _ _ _).sync_logs = _
      unfold add_sync_log
      rw [update_sync_job_sync_logs]

/-- C4 witness: aborting a completed job 9 is rejected with its status in the
error and no store change; aborting a running job 9 cancels it, stamps
completed_at and the cancellation message, and appends the WARNING log. -/
theorem C4_witness :
    abort_sync ⟨[⟨9, "u", "completed", false, 3, 2, 1, none, some 7⟩], [], [], []⟩ 9 50
      = (AbortResult.invalidState "completed",
         ⟨[⟨9, "u", "completed", false, 3, 2, 1, none, some 7⟩], [], [], []⟩) ∧
    (abort_sync ⟨[⟨9, "u", "running", false, 3, 2, 1, none, none⟩], [], [], []⟩ 9 50).1
      = AbortResult.ok 9 ∧
    get_sync_job
        (abort_sync ⟨[⟨9, "u", "running", false, 3, 2, 1, none, none⟩], [], [], []⟩ 9 50).2 9
      = some ⟨9, "u", "cancelled", false, 3, 2, 1, some "Job cancelled by user", some 50⟩ ∧
    (abort_sync ⟨[⟨9, "u", "running", false, 3, 2, 1, none, none⟩], [], [], []⟩ 9 50).2.sync_logs
      = [⟨9, "WARNING", "Sync job cancelled by user", none⟩] := by
  have h1 := C4_abort_guard ⟨[⟨9, "u", "completed", false, 3, 2, 1, none, some 7⟩], [], [], []⟩
    9 50 ⟨9, "u", "completed", false, 3, 2, 1, none, some 7⟩ rfl
  have h2 := C4_abort_guard ⟨[⟨9, "u", "running", false, 3, 2, 1, none, none⟩], [], [], []⟩
    9 50 ⟨9, "u", "running", false, 3, 2, 1, none, none⟩ rfl
  have hterm := h1.1 (Or.inl rfl)
  have hrun := h2.2 (Or.inr rfl)
  exact ⟨hterm.1, hrun.1, hrun.2.1, hrun.2.2⟩

/-! Claim C2. -/

/-- The prelude on a fresh job id succeeds, with its stores spelled out. -/
lemma sync_prelude_ok (db : Store) (job_id : Nat) (u : String) (fs : Bool)
    (hfresh : get_sync_job db job_id = none) :
    sync_prelude db job_id u fs = .ok (add_sync_log
      (update_sync_job { db with sync_jobs := db.sync_jobs ++
        [⟨job_id, u, "queued", fs, 0, 0, 0, none, none⟩] }
        job_id (some "running") none none none none none).2
      job_id "INFO" ("Starting sync for user " ++ u) none) := by
  have h' : db.sync_jobs.find? (fun j => j.job_id == job_id) = none := hfresh
  unfold sync_prelude create_sync_job
  rw [h']

lemma sync_prelude_credentials (db : Store) (job_id : Nat) (u : String) (fs : Bool)
    (db' : Store) (h : sync_prelude db job_id u fs = .ok db') :
    db'.credentials = db.credentials := by
  unfold sync_prelude create_sync_job at h
  cases hf : db.sync_jobs.find? (fun j => j.job_id == job_id) with
  | some j => rw [hf] at h; cases h
  | none =>
    rw [hf] at h
    cases h
    rw [add_sync_log_credentials, update_sync_job_credentials]

lemma sync_prelude_sync_state (db : Store) (job_id : Nat) (u : String) (fs : Bool)
    (db' : Store) (h : sync_prelude db job_id u fs = .ok db') :
    db'.sync_state = db.sync_state := by
  unfold sync_prelude create_sync_job at h
  cases hf : db.sync_jobs.find? (fun j => j.job_id == job_id) with
  | some j => rw [hf] at h; cases h
  | none =>
    rw [hf] at h
    cases h
    rw [add_sync_log_sync_state, update_sync_job_sync_state]

/-- After a successful prelude on a fresh job id, the job row is running with
zero counters. -/
lemma sync_prelude_job (db : Store) (job_id : Nat) (u : String) (fs : Bool)
    (db' : Store) (hfresh : get_sync_job db job_id = none)
    (h : sync_prelude db job_id u fs = .ok db') :
    get_sync_job db' job_id = some ⟨job_id, u, "running", fs, 0, 0, 0, none, none⟩ := by
  rw [sync_prelude_ok db job_id u fs hfresh] at h
  cases h
  have hcreate : create_sync_job db job_id u fs =
      .ok { db with sync_jobs := db.sync_jobs ++
        [⟨job_id, u, "queued", fs, 0, 0, 0, none, none⟩] } := by
    have h' : db.sync_jobs.find? (fun j => j.job_id == job_id) = none := hfresh
    unfold create_sync_job
    rw [h']
  have hq := get_sync_job_create db job_id u fs _ hcreate
  rw [get_sync_job_add_log, get_sync_job_update, hq]
  rfl

/-- The missing-credentials path of `execute_sync`: the prelude runs, then
the try body returns the credential-failure result. -/
lemma execute_sync_no_creds (w : World) (job_id : Nat) (u : String) (fs : Bool)
    (inp : SyncInput)
    (hfresh : get_sync_job w.db job_id = none)
    (hcred : get_credentials w.db u = none) :
    ∃ dbP, sync_prelude w.db job_id u fs = .ok dbP ∧
      execute_sync w job_id u fs inp =
        .ok (sync_cred_fail ⟨dbP, w.events⟩ job_id u inp.now) := by
  refine ⟨_, sync_prelude_ok w.db job_id u fs hfresh, ?_⟩
  have hc : ∀ db' : Store, db'.credentials = w.db.credentials →
      get_credentials db' u = none := fun db' h => by
    unfold get_credentials; rw [h]; exact hcred
  simp only [execute_sync, sync_try_body, sync_prelude_ok w.db job_id u fs hfresh,
    hc, add_sync_log_credentials, update_sync_job_credentials]

/-- C2: for a user with no Credential record, `execute_sync` makes no Note
Source or Page Sink call (the whole event trace is a single critical-error
notification with stage credential_loading), finalizes the job as failed with
an error message containing the word credentials, and returns the failed
result with that error. -/
theorem C2_missing_credentials_no_side_effects (w : World) (job_id : Nat) (u : String)
    (fs : Bool) (inp : SyncInput)
    (hev : w.events = [])
    (hfresh : get_sync_job w.db job_id = none)
    (hcred : get_credentials w.db u = none) :
    ∃ w', execute_sync w job_id u fs inp =
        .ok (SyncResult.failedRun job_id ("No credentials found for user " ++ u), w') ∧
      get_sync_job w'.db job_id =
        some ⟨job_id, u, "failed", fs, 0, 0, 0,
          some ("No credentials found for user " ++ u), some inp.now⟩ ∧
      w'.events = [Event.notifyCritical job_id u
        ("No credentials found for user " ++ u) "credential_loading" none] ∧
      ("No credentials found for user " ++ u
        = "No " ++ "credentials" ++ (" found for user " ++ u)) := by
  obtain ⟨dbP, hP, hexec⟩ := execute_sync_no_creds w job_id u fs inp hfresh hcred
  refine ⟨(sync_cred_fail ⟨dbP, w.events⟩ job_id u inp.now).2, hexec, ?_, ?_, ?_⟩
  · show get_sync_job (add_sync_log (update_sync_job dbP
      job_id (some "failed") none none none _ _).2 job_id "ERROR" _ none) job_id = _
    rw [get_sync_job_add_log, get_sync_job_update,
      sync_prelude_job w.db job_id u fs dbP hfresh hP]
    rfl
  · show w.events ++ [Event.notifyCritical job_id u _ "credential_loading" none] = _
    rw [hev, List.nil_append]
  · rw [show ("No " : String) ++ "credentials" = "No credentials" from rfl,
      ← String.append_assoc,
      show ("No credentials" : String) ++ " found for user "
        = "No credentials found for user " from rfl]

/-- C2 witness: user bob has no credentials in the empty store; running job 1
produces only the notification event and the failed job row. -/
theorem C2_witness :
    ∃ w', execute_sync ⟨⟨[], [], [], []⟩, []⟩ 1 "bob" false
        ⟨⟨500, none, none, "x"⟩, ⟨500, none, "x"⟩, fun _ => SinkOutcome.raise "x", none, 77⟩ =
        .ok (SyncResult.failedRun 1 ("No credentials found for user " ++ "bob"), w') ∧
      get_sync_job w'.db 1 =
        some ⟨1, "bob", "failed", false, 0, 0, 0,
          some ("No credentials found for user " ++ "bob"), some 77⟩ ∧
      w'.events = [Event.notifyCritical 1 "bob"
        ("No credentials found for user " ++ "bob") "credential_loading" none] ∧
      ("No credentials found for user " ++ "bob"
        = "No " ++ "credentials" ++ (" found for user " ++ "bob")) :=
  C2_missing_credentials_no_side_effects ⟨⟨[], [], [], []⟩, []⟩ 1 "bob" false
    ⟨⟨500, none, none, "x"⟩, ⟨500, none, "x"⟩, fun _ => SinkOutcome.raise "x", none, 77⟩
    rfl rfl rfl

/-! Lemmas about the fetch window and the event trace. -/

lemma foldl_max_bound (l : List Nat) (a : Nat) :
    a ≤ l.foldl Nat.max a ∧ ∀ x ∈ l, x ≤ l.foldl Nat.max a := by
  induction l generalizing a with
  | nil => exact ⟨Nat.le_refl a, by simp⟩
  | cons x xs ih =>
    obtain ⟨h1, h2⟩ := ih (Nat.max a x)
    refine ⟨Nat.le_trans (Nat.le_max_left a x) h1, ?_⟩
    intro y hy
    rcases List.mem_cons.mp hy with hy | hy
    · rw [hy]; exact Nat.le_trans (Nat.le_max_right a x) h1
    · exact h2 y hy

lemma foldl_max_attained (l : List Nat) (a : Nat) :
    l.foldl Nat.max a = a ∨ l.foldl Nat.max a ∈ l := by
  induction l generalizing a with
  | nil => exact Or.inl rfl
  | cons x xs ih =>
    rcases ih (Nat.max a x) with h | h
    · show List.foldl Nat.max (Nat.max a x) xs = a
        ∨ List.foldl Nat.max (Nat.max a x) xs ∈ x :: xs
      rcases Nat.le_total a x with hle | hle
      · have hm : Nat.max a x = x := Nat.max_eq_right hle
        exact Or.inr (by rw [h, hm]; exact List.mem_cons_self x xs)
      · have hm : Nat.max a x = a := Nat.max_eq_left hle
        exact Or.inl (by rw [h, hm])
    · exact Or.inr (List.mem_cons_of_mem x h)

lemma compute_modified_since_congr (db1 db2 : Store) (u : String) (fs : Bool)
    (h : db1.sync_state = db2.sync_state) :
    compute_modified_since db1 u fs = compute_modified_since db2 u fs := by
  unfold compute_modified_since get_sync_state_by_user
  rw [h]

/-- Every event `process_one` adds to the trace is a sink call. -/
lemma process_one_events (w : World) (job_id : Nat) (u : String) (note : NoteInput)
    (o : SinkOutcome) (now : Nat) :
    ∃ tail, (process_one w job_id u note o now).2.2.events = w.events ++ tail ∧
      ∀ e ∈ tail, isSinkCall e = true := by
  unfold process_one process_note
  cases note.id with
  | none => exact ⟨[], by simp, by simp⟩
  | some nid =>
    cases hex : get_sync_record w.db u nid with
    | some ex =>
      cases o with
      | raise msg =>
        refine ⟨[Event.sinkUpdateCall ex.notion_page_id nid], ?_, by simp [isSinkCall]⟩
        simp [hex]
      | resp code pid text =>
        by_cases hc : code = 200
        · refine ⟨[Event.sinkUpdateCall ex.notion_page_id nid], ?_, by simp [isSinkCall]⟩
          simp [hex, hc]
        · refine ⟨[Event.sinkUpdateCall ex.notion_page_id nid], ?_, by simp [isSinkCall]⟩
          simp [hex, hc]
    | none =>
      cases o with
      | raise msg =>
        refine ⟨[Event.sinkCreateCall nid], ?_, by simp [isSinkCall]⟩
        simp [hex]
      | resp code pid text =>
        by_cases hc : code = 201
        · refine ⟨[Event.sinkCreateCall nid], ?_, by simp [isSinkCall]⟩
          simp [hex, hc]
        · refine ⟨[Event.sinkCreateCall nid], ?_, by simp [isSinkCall]⟩
          simp [hex, hc]

/-- Every event the per-note loop adds to the trace is a sink call. -/
lemma process_all_events (job_id : Nat) (u : String) (sink : Nat → SinkOutcome)
    (now : Nat) : ∀ (notes : List NoteInput) (w : World) (i : Nat),
    ∃ tail, (process_all w job_id u notes sink now i).2.2.events = w.events ++ tail ∧
      ∀ e ∈ tail, isSinkCall e = true := by
  intro notes
  induction notes with
  | nil => intro w i; exact ⟨[], by simp [process_all], by simp⟩
  | cons note rest ih =>
    intro w i
    obtain ⟨t1, ht1, hs1⟩ := process_one_events w job_id u note (sink i) now
    obtain ⟨t2, ht2, hs2⟩ := ih (process_one w job_id u note (sink i) now).2.2 (i + 1)
    refine ⟨t1 ++ t2, ?_, ?_⟩
    · show (process_all _ job_id u (note :: rest) sink now i).2.2.events = _
      unfold process_all
      rw [ht2, ht1, List.append_assoc]
    · intro e he
      rcases List.mem_append.mp he with he | he
      · exact hs1 e he
      · exact hs2 e he

lemma get_credentials_user (db : Store) (u : String) (cred : CredentialRec)
    (h : get_credentials db u = some cred) : cred.user_id = u := by
  unfold get_credentials at h
  have hb := List.find?_some h
  simp only [beq_iff_eq] at hb
  exact hb

lemma fetch_notes_ok (w : World) (username : String) (ms : Option Nat) (inp : SyncInput)
    (h1 : inp.auth.status_code = 200) (h2 : inp.auth.body_status = some "authenticated")
    (h3 : inp.notesResp.status_code = 200) :
    fetch_notes_from_keep w username ms inp =
      .ok (inp.notesResp.notes.getD [],
        ⟨w.db, (w.events ++ [Event.keepAuthCall username])
          ++ [Event.keepNotesCall (keep_fetch_params username ms inp.note_limit)]⟩) := by
  unfold fetch_notes_from_keep
  rw [if_neg (by simp [h1]), if_neg (by simp [h2]), if_neg (by simp [h3])]

lemma fetch_notes_err (w : World) (username : String) (ms : Option Nat) (inp : SyncInput)
    (h1 : inp.auth.status_code = 200) (h2 : inp.auth.body_status = some "authenticated")
    (h3 : inp.notesResp.status_code ≠ 200) :
    fetch_notes_from_keep w username ms inp =
      .error ("Failed to fetch notes from Keep: " ++ inp.notesResp.text,
        ⟨w.db, (w.events ++ [Event.keepAuthCall username])
          ++ [Event.keepNotesCall (keep_fetch_params username ms inp.note_limit)]⟩) := by
  unfold fetch_notes_from_keep
  rw [if_neg (by simp [h1]), if_neg (by simp [h2]), if_pos (by simp [h3])]

lemma fetch_notes_auth_status_err (w : World) (username : String) (ms : Option Nat)
    (inp : SyncInput) (h1 : inp.auth.status_code ≠ 200) :
    fetch_notes_from_keep w username ms inp =
      .error ("Keep authentication failed: " ++ inp.auth.text,
        ⟨w.db, w.events ++ [Event.keepAuthCall username]⟩) := by
  unfold fetch_notes_from_keep
  rw [if_pos (by simp [h1])]

lemma fetch_notes_auth_body_err (w : World) (username : String) (ms : Option Nat)
    (inp : SyncInput) (h1 : inp.auth.status_code = 200)
    (h2 : inp.auth.body_status ≠ some "authenticated") :
    fetch_notes_from_keep w username ms inp =
      .error ("Keep authentication failed: " ++ (inp.auth.body_error.getD "Unknown error"),
        ⟨w.db, w.events ++ [Event.keepAuthCall username]⟩) := by
  unfold fetch_notes_from_keep
  rw [if_neg (by simp [h1]), if_pos (by simp [h2])]

/-- With credentials present, `execute_sync` is the prelude, the fetch log,
the fetch, and then either the notes phase or the top-level handler. -/
lemma execute_sync_with_creds (w : World) (job_id : Nat) (u : String) (fs : Bool)
    (inp : SyncInput) (cred : CredentialRec) (dbP dbF : Store)
    (hP : sync_prelude w.db job_id u fs = .ok dbP)
    (hcred : get_credentials w.db u = some cred)
    (hdbF : dbF = add_sync_log dbP job_id "INFO"
      ("Fetching notes from Keep (modified_since="
        ++ toString (compute_modified_since w.db u fs) ++ ")") none) :
    execute_sync w job_id u fs inp =
      match fetch_notes_from_keep ⟨dbF, w.events⟩ u
        (compute_modified_since w.db u fs) inp with
      | .error ew => .ok (sync_handler ew.2 job_id u fs inp.now ew.1)
      | .ok nw => .ok (sync_notes_phase nw.2 job_id u nw.1 inp.sink inp.now) := by
  have hPc := sync_prelude_credentials w.db job_id u fs dbP hP
  have hPs := sync_prelude_sync_state w.db job_id u fs dbP hP
  have hgc : get_credentials dbP u = some cred := by
    unfold get_credentials; rw [hPc]; exact hcred
  have huser : cred.user_id = u := get_credentials_user w.db u cred hcred
  have hms : compute_modified_since dbP u fs = compute_modified_since w.db u fs :=
    compute_modified_since_congr dbP w.db u fs hPs
  cases hfetch : fetch_notes_from_keep ⟨dbF, w.events⟩ u
      (compute_modified_since w.db u fs) inp with
  | error ew =>
    obtain ⟨msg, w'⟩ := ew
    simp only [execute_sync, hP, sync_try_body, hgc, hms, huser, ← hdbF, hfetch]
  | ok nw =>
    obtain ⟨notes, w1⟩ := nw
    simp only [execute_sync, hP, sync_try_body, hgc, hms, huser, ← hdbF, hfetch]

lemma isSinkCall_not_notes (e : Event) (h : isSinkCall e = true) : isNotesCall e = false := by
  cases e <;> simp [isNotesCall] <;> simp [isSinkCall] at h

/-- With credentials and a fully successful fetch, `execute_sync` is the
notes phase on the fetched list. -/
lemma execute_sync_notes_ok (w : World) (job_id : Nat) (u : String) (fs : Bool)
    (inp : SyncInput) (cred : CredentialRec) (dbP dbF : Store)
    (hP : sync_prelude w.db job_id u fs = .ok dbP)
    (hcred : get_credentials w.db u = some cred)
    (hdbF : dbF = add_sync_log dbP job_id "INFO"
      ("Fetching notes from Keep (modified_since="
        ++ toString (compute_modified_since w.db u fs) ++ ")") none)
    (hauth1 : inp.auth.status_code = 200)
    (hauth2 : inp.auth.body_status = some "authenticated")
    (hns : inp.notesResp.status_code = 200) :
    execute_sync w job_id u fs inp =
      .ok (sync_notes_phase
        ⟨dbF, (w.events ++ [Event.keepAuthCall u])
          ++ [Event.keepNotesCall (keep_fetch_params u
            (compute_modified_since w.db u fs) inp.note_limit)]⟩
        job_id u (inp.notesResp.notes.getD []) inp.sink inp.now) := by
  rw [execute_sync_with_creds w job_id u fs inp cred dbP dbF hP hcred hdbF,
    fetch_notes_ok _ u _ inp hauth1 hauth2 hns]

/-- With credentials, a successful Keep auth and a failing notes request,
`execute_sync` is the top-level handler on the fetch error. -/
lemma execute_sync_notes_err (w : World) (job_id : Nat) (u : String) (fs : Bool)
    (inp : SyncInput) (cred : CredentialRec) (dbP dbF : Store)
    (hP : sync_prelude w.db job_id u fs = .ok dbP)
    (hcred : get_credentials w.db u = some cred)
    (hdbF : dbF = add_sync_log dbP job_id "INFO"
      ("Fetching notes from Keep (modified_since="
        ++ toString (compute_modified_since w.db u fs) ++ ")") none)
    (hauth1 : inp.auth.status_code = 200)
    (hauth2 : inp.auth.body_status = some "authenticated")
    (hns : inp.notesResp.status_code ≠ 200) :
    execute_sync w job_id u fs inp =
      .ok (sync_handler
        ⟨dbF, (w.events ++ [Event.keepAuthCall u])
          ++ [Event.keepNotesCall (keep_fetch_params u
            (compute_modified_since w.db u fs) inp.note_limit)]⟩
        job_id u fs inp.now
        ("Failed to fetch notes from Keep: " ++ inp.notesResp.text)) := by
  rw [execute_sync_with_creds w job_id u fs inp cred dbP dbF hP hcred hdbF,
    fetch_notes_err _ u _ inp hauth1 hauth2 hns]

/-- Every event the notes phase adds to the trace is a sink call. -/
lemma sync_notes_phase_events (w1 : World) (job_id : Nat) (u : String)
    (notes : List NoteInput) (sink : Nat → SinkOutcome) (now : Nat) :
    ∃ tail, (sync_notes_phase w1 job_id u notes sink now).2.events = w1.events ++ tail ∧
      ∀ e ∈ tail, isSinkCall e = true := by
  obtain ⟨tail, ht, hs⟩ := process_all_events job_id u sink now notes
    ⟨add_sync_log (update_sync_job w1.db job_id none (some notes.length)
        none none none none).2 job_id "INFO"
        ("Fetched " ++ toString notes.length ++ " notes from Keep") none,
     w1.events⟩ 0
  exact ⟨tail, ht, hs⟩

/-- The notes phase adds no Keep notes call to the trace. -/
lemma filter_notes_of_phase (w1 : World) (job_id : Nat) (u : String)
    (notes : List NoteInput) (sink : Nat → SinkOutcome) (now : Nat) :
    (sync_notes_phase w1 job_id u notes sink now).2.events.filter isNotesCall
      = w1.events.filter isNotesCall := by
  obtain ⟨tail, ht, hs⟩ := sync_notes_phase_events w1 job_id u notes sink now
  rw [ht, List.filter_append]
  have hnil : tail.filter isNotesCall = [] := by
    rw [List.filter_eq_nil_iff]
    intro e he
    rw [isSinkCall_not_notes e (hs e he)]
    simp
  rw [hnil, List.append_nil]

/-! Claim C5. -/

/-- C5: a full sync passes no lower bound to the note source; an incremental
sync with no SyncState rows passes no lower bound; an incremental sync with
rows passes exactly the maximum last_synced_at over the rows of the user; and in a
run with credentials and successful Keep auth, the single Keep notes call of
the trace carries exactly that bound as modified_since. -/
theorem C5_incremental_window (w : World) (job_id : Nat) (u : String) (fs : Bool)
    (inp : SyncInput) (cred : CredentialRec)
    (hev : w.events = [])
    (hfresh : get_sync_job w.db job_id = none)
    (hcred : get_credentials w.db u = some cred)
    (hauth1 : inp.auth.status_code = 200)
    (hauth2 : inp.auth.body_status = some "authenticated") :
    (fs = true → compute_modified_since w.db u fs = none) ∧
    (fs = false → get_sync_state_by_user w.db u = [] →
      compute_modified_since w.db u fs = none) ∧
    (fs = false → get_sync_state_by_user w.db u ≠ [] →
      ∃ T, compute_modified_since w.db u fs = some T ∧
        (∀ s ∈ get_sync_state_by_user w.db u, s.last_synced_at ≤ T) ∧
        (∃ s ∈ get_sync_state_by_user w.db u, s.last_synced_at = T)) ∧
    (∃ res, execute_sync w job_id u fs inp = .ok res ∧
      res.2.events.filter isNotesCall =
        [Event.keepNotesCall (keep_fetch_params u
          (compute_modified_since w.db u fs) inp.note_limit)]) := by
  refine ⟨?_, ?_, ?_, ?_⟩
  · intro h; subst h; simp [compute_modified_since]
  · intro hfs hempty; subst hfs
    simp [compute_modified_since, hempty]
  · intro hfs hne; subst hfs
    cases hss : get_sync_state_by_user w.db u with
    | nil => exact absurd hss hne
    | cons r rs =>
      refine ⟨(rs.map fun s => s.last_synced_at).foldl Nat.max r.last_synced_at,
        ?_, ?_, ?_⟩
      · simp [compute_modified_since, hss]
      · intro s hsmem
        rcases List.mem_cons.mp hsmem with hsr | hsr
        · rw [hsr]
          exact (foldl_max_bound (rs.map fun s => s.last_synced_at) r.last_synced_at).1
        · exact (foldl_max_bound (rs.map fun s => s.last_synced_at) r.last_synced_at).2
            s.last_synced_at (List.mem_map_of_mem _ hsr)
      · rcases foldl_max_attained (rs.map fun s => s.last_synced_at) r.last_synced_at
          with h | h
        · exact ⟨r, List.mem_cons_self r rs, h.symm⟩
        · obtain ⟨s, hsmem, hlast⟩ := List.mem_map.mp h
          exact ⟨s, List.mem_cons_of_mem r hsmem, hlast⟩
  · by_cases hns : inp.notesResp.status_code = 200
    · have hexec := execute_sync_notes_ok w job_id u fs inp cred _ _
        (sync_prelude_ok w.db job_id u fs hfresh) hcred rfl hauth1 hauth2 hns
      refine ⟨_, hexec, ?_⟩
      rw [filter_notes_of_phase]
      show (((w.events ++ [Event.keepAuthCall u])
          ++ [Event.keepNotesCall (keep_fetch_params u
            (compute_modified_since w.db u fs) inp.note_limit)]).filter isNotesCall) = _
      rw [hev]
      simp [isNotesCall]
    · have hexec := execute_sync_notes_err w job_id u fs inp cred _ _
        (sync_prelude_ok w.db job_id u fs hfresh) hcred rfl hauth1 hauth2 hns
      refine ⟨_, hexec, ?_⟩
      show (((w.events ++ [Event.keepAuthCall u])
          ++ [Event.keepNotesCall (keep_fetch_params u
            (compute_modified_since w.db u fs) inp.note_limit)])
          ++ [Event.notifyCritical job_id u
            ("Failed to fetch notes from Keep: " ++ inp.notesResp.text)
            "sync_execution" (some fs)]).filter isNotesCall = _
      rw [hev]
      simp [isNotesCall]

/-! Lemmas for the per-note loop on fresh state (create path). -/

lemma get_sync_record_congr (db1 db2 : Store) (u n : String)
    (h : db1.sync_state = db2.sync_state) :
    get_sync_record db1 u n = get_sync_record db2 u n := by
  unfold get_sync_record
  rw [h]

lemma upsert_of_absent (db : Store) (u nid pid : String) (m t : Nat)
    (h : get_sync_record db u nid = none) :
    (upsert_sync_state db u nid pid m t).sync_state =
      db.sync_state ++ [⟨u, nid, pid, t, m⟩] := by
  show upsertStateList u nid pid m t db.sync_state = _
  unfold upsertStateList
  have hany : db.sync_state.any (stateMatch u nid) = false := by
    rw [List.any_eq_false]
    intro r hr
    have := List.find?_eq_none.mp h r hr
    simpa using this
  rw [if_neg (by rw [hany]; decide)]

lemma find?_state_append (l : List SyncStateRec) (u nid nid' pid : String) (m t : Nat)
    (h : nid ≠ nid') :
    (l ++ [(⟨u, nid, pid, t, m⟩ : SyncStateRec)]).find? (stateMatch u nid')
      = l.find? (stateMatch u nid') := by
  rw [List.find?_append]
  have hb : (nid == nid') = false := beq_eq_false_iff_ne.mpr h
  have hone : ([⟨u, nid, pid, t, m⟩] : List SyncStateRec).find? (stateMatch u nid') = none := by
    simp [List.find?, stateMatch, hb]
  rw [hone]
  cases l.find? (stateMatch u nid') <;> rfl

/-- One loop iteration on a note with an id and no prior mapping: a 201 from
the sink contributes (1, 0), inserts exactly one sync_state row, and bumps
processed_notes; anything else contributes (0, 1), leaves sync_state alone,
and bumps failed_notes. -/
lemma process_one_create_spec (w : World) (job_id : Nat) (u : String) (note : NoteInput)
    (o : SinkOutcome) (now : Nat) (nid : String) (J : SyncJobRec)
    (hnid : note.id = some nid)
    (habsent : get_sync_record w.db u nid = none)
    (hjob : get_sync_job w.db job_id = some J) :
    (process_one w job_id u note o now).1 = (if createSuccess o then 1 else 0) ∧
    (process_one w job_id u note o now).2.1 = (if createSuccess o then 0 else 1) ∧
    (process_one w job_id u note o now).2.2.db.sync_state =
      (match o with
       | .resp code pid _ =>
          if code == 201 then w.db.sync_state ++ [⟨u, nid, pid, now, note.modified_at⟩]
          else w.db.sync_state
       | .raise _ => w.db.sync_state) ∧
    get_sync_job (process_one w job_id u note o now).2.2.db job_id =
      some { J with
        processed_notes := J.processed_notes + (if createSuccess o then 1 else 0),
        failed_notes := J.failed_notes + (if createSuccess o then 0 else 1) } := by
  unfold process_one process_note
  cases o with
  | raise msg =>
    simp only [hnid, habsent, createSuccess]
    refine ⟨by trivial, by trivial, ?_, ?_⟩
    · show (increment_sync_job_progress (add_sync_log w.db job_id "ERROR" _ _)
        job_id 0 1).2.sync_state = _
      rw [increment_sync_state, add_sync_log_sync_state]
    · show get_sync_job (increment_sync_job_progress (add_sync_log w.db job_id "ERROR" _ _)
        job_id 0 1).2 job_id = _
      rw [get_sync_job_increment, get_sync_job_add_log, hjob]
      rfl
  | resp code pid text =>
    by_cases hc : code = 201
    · subst hc
      simp only [hnid, habsent, createSuccess]
      have hbne : ((201 : Nat) != 201) = false := by decide
      simp only [hbne, Bool.false_eq_true, if_false]
      refine ⟨by trivial, by trivial, ?_, ?_⟩
      · show (increment_sync_job_progress (add_sync_log
          (upsert_sync_state w.db u nid pid note.modified_at now) job_id "INFO" _ _)
          job_id 1 0).2.sync_state = _
        rw [increment_sync_state, add_sync_log_sync_state,
          upsert_of_absent w.db u nid pid note.modified_at now habsent]
        simp
      · show get_sync_job (increment_sync_job_progress (add_sync_log
          (upsert_sync_state w.db u nid pid note.modified_at now) job_id "INFO" _ _)
          job_id 1 0).2 job_id = _
        rw [get_sync_job_increment, get_sync_job_add_log, get_sync_job_upsert, hjob]
        simp
    · have hbne : ((code : Nat) != 201) = true := by simp [hc]
      have hbeq : ((code : Nat) == 201) = false := by simp [hc]
      simp only [hnid, habsent, createSuccess, hbne, hbeq, if_true, Bool.false_eq_true,
        if_false]
      refine ⟨by trivial, by trivial, ?_, ?_⟩
      · show (increment_sync_job_progress (add_sync_log w.db job_id "ERROR" _ _)
          job_id 0 1).2.sync_state = _
        rw [increment_sync_state, add_sync_log_sync_state]
      · show get_sync_job (increment_sync_job_progress (add_sync_log w.db job_id "ERROR" _ _)
          job_id 0 1).2 job_id = _
        rw [get_sync_job_increment, get_sync_job_add_log, hjob]
        rfl

lemma expectedNewRows_cons (u : String) (now : Nat) (sink : Nat → SinkOutcome)
    (i : Nat) (note : NoteInput) (rest : List NoteInput) :
    expectedNewRows u now sink i (note :: rest) =
      match sink i, note.id with
      | .resp code pid _, some nid =>
          if code == 201 then
            ⟨u, nid, pid, now, note.modified_at⟩ ::
              expectedNewRows u now sink (i + 1) rest
          else expectedNewRows u now sink (i + 1) rest
      | _, _ => expectedNewRows u now sink (i + 1) rest := rfl

/-- The whole per-note loop on fresh state: local counters count the create
successes and failures, sync_state gains exactly the rows of the succeeded notes,
and the counters of the job row are bumped accordingly. -/
lemma process_all_create_spec (job_id : Nat) (u : String) (sink : Nat → SinkOutcome)
    (now : Nat) : ∀ (notes : List NoteInput) (w : World) (i : Nat) (J : SyncJobRec),
    get_sync_job w.db job_id = some J →
    (∀ note ∈ notes, ∀ nid, note.id = some nid → get_sync_record w.db u nid = none) →
    (∀ note ∈ notes, note.id.isSome) →
    ((notes.map NoteInput.id).Nodup) →
    (process_all w job_id u notes sink now i).1 = numCreateSuccesses sink i notes.length ∧
    (process_all w job_id u notes sink now i).2.1 = numCreateFailures sink i notes.length ∧
    (process_all w job_id u notes sink now i).2.2.db.sync_state =
      w.db.sync_state ++ expectedNewRows u now sink i notes ∧
    get_sync_job (process_all w job_id u notes sink now i).2.2.db job_id =
      some { J with
        processed_notes := J.processed_notes + numCreateSuccesses sink i notes.length,
        failed_notes := J.failed_notes + numCreateFailures sink i notes.length } := by
  intro notes
  induction notes with
  | nil =>
    intro w i J hjob _ _ _
    refine ⟨rfl, rfl, by simp [process_all, expectedNewRows], ?_⟩
    show get_sync_job w.db job_id = _
    rw [hjob]
    simp [numCreateSuccesses, numCreateFailures]
  | cons note rest ih =>
    intro w i J hjob hAbsent hSome hNodup
    have hs := hSome note (List.mem_cons_self note rest)
    obtain ⟨nid, hnid⟩ := Option.isSome_iff_exists.mp hs
    have habs : get_sync_record w.db u nid = none :=
      hAbsent note (List.mem_cons_self note rest) nid hnid
    rw [List.map_cons, List.nodup_cons] at hNodup
    obtain ⟨hnotin, hNodup'⟩ := hNodup
    have hSome' : ∀ note' ∈ rest, note'.id.isSome :=
      fun n hm => hSome n (List.mem_cons_of_mem _ hm)
    obtain ⟨h1, h2, h3, h4⟩ :=
      process_one_create_spec w job_id u note (sink i) now nid J hnid habs hjob
    have hne : ∀ note' ∈ rest, ∀ nid', note'.id = some nid' → nid ≠ nid' := by
      intro note' hmem nid' hnid' hEq
      subst hEq
      refine hnotin ?_
      rw [hnid, ← hnid']
      exact List.mem_map_of_mem NoteInput.id hmem
    have hAbsent' : ∀ note' ∈ rest, ∀ nid', note'.id = some nid' →
        get_sync_record (process_one w job_id u note (sink i) now).2.2.db u nid' = none := by
      intro note' hmem nid' hnid'
      have horig : get_sync_record w.db u nid' = none :=
        hAbsent note' (List.mem_cons_of_mem note hmem) nid' hnid'
      cases ho : sink i with
      | raise msg =>
        rw [ho] at h3
        exact (get_sync_record_congr _ w.db u nid' h3).trans horig
      | resp code pid text =>
        rw [ho] at h3
        have h3' : (process_one w job_id u note
            (SinkOutcome.resp code pid text) now).2.2.db.sync_state
            = if (code == 201) = true then
                w.db.sync_state ++ [⟨u, nid, pid, now, note.modified_at⟩]
              else w.db.sync_state := h3
        by_cases hcode : (code == 201) = true
        · rw [if_pos hcode] at h3'
          show (process_one w job_id u note
            (SinkOutcome.resp code pid text) now).2.2.db.sync_state.find?
            (stateMatch u nid') = none
          rw [h3', find?_state_append w.db.sync_state u nid nid' pid note.modified_at now
            (hne note' hmem nid' hnid')]
          exact horig
        · rw [if_neg hcode] at h3'
          exact (get_sync_record_congr _ w.db u nid' h3').trans horig
    obtain ⟨g1, g2, g3, g4⟩ := ih (process_one w job_id u note (sink i) now).2.2 (i + 1)
      { J with
        processed_notes := J.processed_notes + (if createSuccess (sink i) then 1 else 0),
        failed_notes := J.failed_notes + (if createSuccess (sink i) then 0 else 1) }
      h4 hAbsent' hSome' hNodup'
    refine ⟨?_, ?_, ?_, ?_⟩
    · show (process_one w job_id u note (sink i) now).1 +
        (process_all (process_one w job_id u note (sink i) now).2.2
          job_id u rest sink now (i + 1)).1 = _
      rw [h1, g1]
      rfl
    · show (process_one w job_id u note (sink i) now).2.1 +
        (process_all (process_one w job_id u note (sink i) now).2.2
          job_id u rest sink now (i + 1)).2.1 = _
      rw [h2, g2]
      rfl
    · show (process_all (process_one w job_id u note (sink i) now).2.2
        job_id u rest sink now (i + 1)).2.2.db.sync_state = _
      rw [g3]
      cases ho : sink i with
      | raise msg =>
        rw [ho] at h3
        have h3' : (process_one w job_id u note
            (SinkOutcome.raise msg) now).2.2.db.sync_state = w.db.sync_state := h3
        rw [h3']
        rw [show expectedNewRows u now sink i (note :: rest)
          = expectedNewRows u now sink (i + 1) rest from by
            rw [expectedNewRows_cons, ho, hnid]]
      | resp code pid text =>
        rw [ho] at h3
        have h3' : (process_one w job_id u note
            (SinkOutcome.resp code pid text) now).2.2.db.sync_state
            = if (code == 201) = true then
                w.db.sync_state ++ [⟨u, nid, pid, now, note.modified_at⟩]
              else w.db.sync_state := h3
        by_cases hcode : (code == 201) = true
        · rw [if_pos hcode] at h3'
          rw [h3']
          rw [show expectedNewRows u now sink i (note :: rest)
            = ⟨u, nid, pid, now, note.modified_at⟩ ::
              expectedNewRows u now sink (i + 1) rest from by
              rw [expectedNewRows_cons, ho, hnid]
              show (if (code == 201) = true then
                  (⟨u, nid, pid, now, note.modified_at⟩ : SyncStateRec) ::
                    expectedNewRows u now sink (i + 1) rest
                else expectedNewRows u now sink (i + 1) rest) = _
              rw [if_pos hcode]]
          rw [List.append_assoc]
          rfl
        · rw [if_neg hcode] at h3'
          rw [h3']
          rw [show expectedNewRows u now sink i (note :: rest)
            = expectedNewRows u now sink (i + 1) rest from by
              rw [expectedNewRows_cons, ho, hnid]
              show (if (code == 201) = true then
                  (⟨u, nid, pid, now, note.modified_at⟩ : SyncStateRec) ::
                    expectedNewRows u now sink (i + 1) rest
                else expectedNewRows u now sink (i + 1) rest) = _
              rw [if_neg hcode]]
    · show get_sync_job (process_all (process_one w job_id u note (sink i) now).2.2
        job_id u rest sink now (i + 1)).2.2.db job_id = _
      rw [g4]
      show some _ = some _
      congr 1
      show ({ J with
        processed_notes := (J.processed_notes
          + (if createSuccess (sink i) then 1 else 0))
          + numCreateSuccesses sink (i + 1) rest.length,
        failed_notes := (J.failed_notes
          + (if createSuccess (sink i) then 0 else 1))
          + numCreateFailures sink (i + 1) rest.length } : SyncJobRec) = _
      simp [Nat.add_assoc]
      constructor
      · rfl
      · rfl

/-- The notes phase on fresh state: result and job row say completed with
total = N, processed = create successes, failed = create failures, and
sync_state gains exactly the rows of the succeeded notes. -/
lemma sync_notes_phase_spec (w1 : World) (job_id : Nat) (u : String)
    (notes : List NoteInput) (sink : Nat → SinkOutcome) (now : Nat) (J : SyncJobRec)
    (hjob : get_sync_job w1.db job_id = some J)
    (hAbsent : ∀ note ∈ notes, ∀ nid, note.id = some nid →
      get_sync_record w1.db u nid = none)
    (hSome : ∀ note ∈ notes, note.id.isSome)
    (hNodup : (notes.map NoteInput.id).Nodup) :
    (sync_notes_phase w1 job_id u notes sink now).1 =
      SyncResult.completed job_id notes.length
        (numCreateSuccesses sink 0 notes.length) (numCreateFailures sink 0 notes.length) ∧
    get_sync_job (sync_notes_phase w1 job_id u notes sink now).2.db job_id =
      some { J with
        status := "completed",
        total_notes := notes.length,
        processed_notes := J.processed_notes + numCreateSuccesses sink 0 notes.length,
        failed_notes := J.failed_notes + numCreateFailures sink 0 notes.length,
        completed_at := some now } ∧
    (sync_notes_phase w1 job_id u notes sink now).2.db.sync_state =
      w1.db.sync_state ++ expectedNewRows u now sink 0 notes := by
  have hjob2 : get_sync_job (add_sync_log
      (update_sync_job w1.db job_id none (some notes.length) none none none none).2
      job_id "INFO" ("Fetched " ++ toString notes.length ++ " notes from Keep") none)
      job_id = some { J with total_notes := notes.length } := by
    rw [get_sync_job_add_log, get_sync_job_update, hjob]
    rfl
  have hstate2 : (add_sync_log
      (update_sync_job w1.db job_id none (some notes.length) none none none none).2
      job_id "INFO" ("Fetched " ++ toString notes.length ++ " notes from Keep")
      none).sync_state = w1.db.sync_state := by
    rw [add_sync_log_sync_state, update_sync_job_sync_state]
  have hAbsent2 : ∀ note ∈ notes, ∀ nid, note.id = some nid →
      get_sync_record (⟨add_sync_log
        (update_sync_job w1.db job_id none (some notes.length) none none none none).2
        job_id "INFO" ("Fetched " ++ toString notes.length ++ " notes from Keep") none,
        w1.events⟩ : World).db u nid = none := by
    intro note hm nid hnid
    exact (get_sync_record_congr _ w1.db u nid hstate2).trans (hAbsent note hm nid hnid)
  obtain ⟨g1, g2, g3, g4⟩ := process_all_create_spec job_id u sink now notes
    ⟨add_sync_log
      (update_sync_job w1.db job_id none (some notes.length) none none none none).2
      job_id "INFO" ("Fetched " ++ toString notes.length ++ " notes from Keep") none,
     w1.events⟩ 0 { J with total_notes := notes.length } hjob2 hAbsent2 hSome hNodup
  refine ⟨?_, ?_, ?_⟩
  · show SyncResult.completed job_id notes.length
      (process_all _ job_id u notes sink now 0).1
      (process_all _ job_id u notes sink now 0).2.1 = _
    rw [g1, g2]
  · show get_sync_job (add_sync_log (update_sync_job
      (process_all _ job_id u notes sink now 0).2.2.db job_id (some "completed")
      none none none none (some now)).2 job_id "INFO" _ none) job_id = _
    rw [get_sync_job_add_log, get_sync_job_update, g4]
    rfl
  · show (add_sync_log (update_sync_job
      (process_all _ job_id u notes sink now 0).2.2.db job_id (some "completed")
      none none none none (some now)).2 job_id "INFO" _ none).sync_state = _
    rw [add_sync_log_sync_state, update_sync_job_sync_state, g3]
    show (add_sync_log (update_sync_job w1.db job_id none (some notes.length)
      none none none none).2 job_id "INFO" _ none).sync_state ++ _ = _
    rw [hstate2]

lemma numCreate_total (sink : Nat → SinkOutcome) :
    ∀ n i, numCreateSuccesses sink i n + numCreateFailures sink i n = n := by
  intro n
  induction n with
  | zero => intro i; rfl
  | succ m ih =>
    intro i
    show (if createSuccess (sink i) then 1 else 0) + numCreateSuccesses sink (i + 1) m
      + ((if createSuccess (sink i) then 0 else 1) + numCreateFailures sink (i + 1) m)
      = m + 1
    have := ih (i + 1)
    by_cases hc : createSuccess (sink i) = true
    · rw [if_pos hc, if_pos hc]; omega
    · rw [if_neg hc, if_neg hc]; omega

/-! Claim C1. -/

/-- C1: with credentials, a successful fetch of `notes` (each carrying an id,
ids distinct, no prior sync state), and the i-th sink call succeeding iff the
i-th outcome is a 201 response: the job completes with total_notes = N,
processed_notes = number of sink successes (N - |F|), failed_notes = |F|
(successes + failures = N), SyncState rows exist exactly for the succeeded
notes, no single failure aborts the batch, and for N = 0 the Page Sink is
never invoked (no sink event in the trace). -/
theorem C1_partial_failure_isolation (w : World) (job_id : Nat) (u : String) (fs : Bool)
    (inp : SyncInput) (cred : CredentialRec) (notes : List NoteInput)
    (hev : w.events = [])
    (hfresh : get_sync_job w.db job_id = none)
    (hstate : w.db.sync_state = [])
    (hcred : get_credentials w.db u = some cred)
    (hauth1 : inp.auth.status_code = 200)
    (hauth2 : inp.auth.body_status = some "authenticated")
    (hns : inp.notesResp.status_code = 200)
    (hnotes : inp.notesResp.notes = some notes)
    (hSome : ∀ note ∈ notes, note.id.isSome)
    (hNodup : (notes.map NoteInput.id).Nodup) :
    ∃ res, execute_sync w job_id u fs inp = .ok res ∧
      res.1 = SyncResult.completed job_id notes.length
        (numCreateSuccesses inp.sink 0 notes.length)
        (numCreateFailures inp.sink 0 notes.length) ∧
      numCreateSuccesses inp.sink 0 notes.length
        + numCreateFailures inp.sink 0 notes.length = notes.length ∧
      get_sync_job res.2.db job_id = some ⟨job_id, u, "completed", fs, notes.length,
        numCreateSuccesses inp.sink 0 notes.length,
        numCreateFailures inp.sink 0 notes.length, none, some inp.now⟩ ∧
      res.2.db.sync_state = expectedNewRows u inp.now inp.sink 0 notes ∧
      (notes = [] → res.2.events.filter isSinkCall = []) := by
  have hP := sync_prelude_ok w.db job_id u fs hfresh
  have hexec := execute_sync_notes_ok w job_id u fs inp cred _ _ hP hcred rfl
    hauth1 hauth2 hns
  rw [hnotes] at hexec
  set dbF := add_sync_log
      (add_sync_log
        (update_sync_job { w.db with sync_jobs := w.db.sync_jobs ++
          [⟨job_id, u, "queued", fs, 0, 0, 0, none, none⟩] }
          job_id (some "running") none none none none none).2
        job_id "INFO" ("Starting sync for user " ++ u) none)
      job_id "INFO" ("Fetching notes from Keep (modified_since="
        ++ toString (compute_modified_since w.db u fs) ++ ")") none with hdbF
  set evsF := (w.events ++ [Event.keepAuthCall u])
      ++ [Event.keepNotesCall (keep_fetch_params u
        (compute_modified_since w.db u fs) inp.note_limit)] with hevsF
  have hstateF : dbF.sync_state = [] := by
    rw [hdbF, add_sync_log_sync_state, add_sync_log_sync_state, update_sync_job_sync_state]
    exact hstate
  have hjobF : get_sync_job dbF job_id
      = some ⟨job_id, u, "running", fs, 0, 0, 0, none, none⟩ := by
    rw [hdbF, get_sync_job_add_log]
    exact sync_prelude_job w.db job_id u fs _ hfresh hP
  have hAbsF : ∀ note ∈ notes, ∀ nid, note.id = some nid →
      get_sync_record dbF u nid = none := by
    intro note hm nid hnid
    unfold get_sync_record
    rw [hstateF]
    rfl
  obtain ⟨p1, p2, p3⟩ := sync_notes_phase_spec ⟨dbF, evsF⟩ job_id u notes inp.sink inp.now
    ⟨job_id, u, "running", fs, 0, 0, 0, none, none⟩ hjobF
    (fun note hm nid hnid => hAbsF note hm nid hnid) hSome hNodup
  refine ⟨sync_notes_phase ⟨dbF, evsF⟩ job_id u notes inp.sink inp.now, hexec, p1,
    numCreate_total inp.sink notes.length 0, ?_, ?_, ?_⟩
  · rw [p2]
    simp
  · rw [p3]
    show dbF.sync_state ++ expectedNewRows u inp.now inp.sink 0 notes = _
    rw [hstateF, List.nil_append]
  · intro hnil
    subst hnil
    show evsF.filter isSinkCall = []
    rw [hevsF, hev]
    simp [isSinkCall]

/-- C1 witness: a run for alice with two notes, the first create succeeding
(201) and the second raising a timeout, completes with total 2,
processed 1, failed 1, and exactly one SyncState row (for n1). -/
theorem C1_witness :
    ∃ res, execute_sync wAlice 3 "alice" true c1_inp = .ok res ∧
      res.1 = SyncResult.completed 3 c1_notes.length
        (numCreateSuccesses c1_inp.sink 0 c1_notes.length)
        (numCreateFailures c1_inp.sink 0 c1_notes.length) ∧
      numCreateSuccesses c1_inp.sink 0 c1_notes.length
        + numCreateFailures c1_inp.sink 0 c1_notes.length = c1_notes.length ∧
      get_sync_job res.2.db 3 = some ⟨3, "alice", "completed", true, c1_notes.length,
        numCreateSuccesses c1_inp.sink 0 c1_notes.length,
        numCreateFailures c1_inp.sink 0 c1_notes.length, none, some c1_inp.now⟩ ∧
      res.2.db.sync_state = expectedNewRows "alice" c1_inp.now c1_inp.sink 0 c1_notes ∧
      (c1_notes = [] → res.2.events.filter isSinkCall = []) :=
  C1_partial_failure_isolation wAlice 3 "alice" true c1_inp
    ⟨"alice", "gtok", "ntok", "dbid"⟩ c1_notes rfl rfl rfl rfl rfl rfl rfl rfl
    (by decide) (by decide)

/-- C5 witness: the two state rows of alice have max last_synced_at 40; the
incremental run passes exactly that bound in its single notes call. -/
theorem C5_witness :
    ((false = true → compute_modified_since c5_w.db "alice" false = none) ∧
    (false = false → get_sync_state_by_user c5_w.db "alice" = [] →
      compute_modified_since c5_w.db "alice" false = none) ∧
    (false = false → get_sync_state_by_user c5_w.db "alice" ≠ [] →
      ∃ T, compute_modified_since c5_w.db "alice" false = some T ∧
        (∀ s ∈ get_sync_state_by_user c5_w.db "alice", s.last_synced_at ≤ T) ∧
        (∃ s ∈ get_sync_state_by_user c5_w.db "alice", s.last_synced_at = T)) ∧
    (∃ res, execute_sync c5_w 8 "alice" false c5_inp = .ok res ∧
      res.2.events.filter isNotesCall =
        [Event.keepNotesCall (keep_fetch_params "alice"
          (compute_modified_since c5_w.db "alice" false) c5_inp.note_limit)])) ∧
    compute_modified_since c5_w.db "alice" false = some 40 := by
  refine ⟨C5_incremental_window c5_w 8 "alice" false c5_inp
    ⟨"alice", "gtok", "ntok", "dbid"⟩ rfl rfl rfl rfl rfl, ?_⟩
  rfl

/-! Claim C10. -/

/-- C10: a 200 notes response whose JSON body lacks the notes key yields the
empty note list from `_fetch_notes_from_keep` (not an error), so the run
completes the job with all counters 0 and leaves sync_state untouched. -/
theorem C10_missing_notes_key (w : World) (job_id : Nat) (u : String) (fs : Bool)
    (inp : SyncInput) (cred : CredentialRec)
    (hfresh : get_sync_job w.db job_id = none)
    (hcred : get_credentials w.db u = some cred)
    (hauth1 : inp.auth.status_code = 200)
    (hauth2 : inp.auth.body_status = some "authenticated")
    (hns : inp.notesResp.status_code = 200)
    (hnokey : inp.notesResp.notes = none) :
    (∀ ms wq, fetch_notes_from_keep wq u ms inp =
      .ok ([], ⟨wq.db, (wq.events ++ [Event.keepAuthCall u])
        ++ [Event.keepNotesCall (keep_fetch_params u ms inp.note_limit)]⟩)) ∧
    ∃ res, execute_sync w job_id u fs inp = .ok res ∧
      res.1 = SyncResult.completed job_id 0 0 0 ∧
      get_sync_job res.2.db job_id
        = some ⟨job_id, u, "completed", fs, 0, 0, 0, none, some inp.now⟩ ∧
      res.2.db.sync_state = w.db.sync_state := by
  constructor
  · intro ms wq
    rw [fetch_notes_ok wq u ms inp hauth1 hauth2 hns, hnokey]
    rfl
  · have hP := sync_prelude_ok w.db job_id u fs hfresh
    have hexec := execute_sync_notes_ok w job_id u fs inp cred _ _ hP hcred rfl
      hauth1 hauth2 hns
    rw [hnokey] at hexec
    set dbF := add_sync_log
        (add_sync_log
          (update_sync_job { w.db with sync_jobs := w.db.sync_jobs ++
            [⟨job_id, u, "queued", fs, 0, 0, 0, none, none⟩] }
            job_id (some "running") none none none none none).2
          job_id "INFO" ("Starting sync for user " ++ u) none)
        job_id "INFO" ("Fetching notes from Keep (modified_since="
          ++ toString (compute_modified_since w.db u fs) ++ ")") none with hdbF
    set evsF := (w.events ++ [Event.keepAuthCall u])
        ++ [Event.keepNotesCall (keep_fetch_params u
          (compute_modified_since w.db u fs) inp.note_limit)] with hevsF
    have hjobF : get_sync_job dbF job_id
        = some ⟨job_id, u, "running", fs, 0, 0, 0, none, none⟩ := by
      rw [hdbF, get_sync_job_add_log]
      exact sync_prelude_job w.db job_id u fs _ hfresh hP
    obtain ⟨p1, p2, p3⟩ := sync_notes_phase_spec ⟨dbF, evsF⟩ job_id u [] inp.sink inp.now
      ⟨job_id, u, "running", fs, 0, 0, 0, none, none⟩ hjobF
      (fun note hm => absurd hm (List.not_mem_nil note))
      (fun note hm => absurd hm (List.not_mem_nil note)) (by simp)
    refine ⟨sync_notes_phase ⟨dbF, evsF⟩ job_id u [] inp.sink inp.now, hexec, p1, ?_, ?_⟩
    · rw [p2]
      rfl
    · rw [p3]
      show dbF.sync_state ++ expectedNewRows u inp.now inp.sink 0 [] = _
      rw [hdbF, add_sync_log_sync_state, add_sync_log_sync_state,
        update_sync_job_sync_state]
      show w.db.sync_state ++ [] = _
      rw [List.append_nil]

/-- C10 witness: with the credentials of dave and a 200 response lacking the notes
key, the run completes with zeroed counters. -/
theorem C10_witness :
    (∀ ms wq, fetch_notes_from_keep wq "dave" ms c10_inp =
      .ok ([], ⟨wq.db, (wq.events ++ [Event.keepAuthCall "dave"])
        ++ [Event.keepNotesCall (keep_fetch_params "dave" ms c10_inp.note_limit)]⟩)) ∧
    ∃ res, execute_sync c6_w 11 "dave" false c10_inp = .ok res ∧
      res.1 = SyncResult.completed 11 0 0 0 ∧
      get_sync_job res.2.db 11
        = some ⟨11, "dave", "completed", false, 0, 0, 0, none, some 42⟩ ∧
      res.2.db.sync_state = c6_w.db.sync_state :=
  C10_missing_notes_key c6_w 11 "dave" false c10_inp
    ⟨"dave", "gtok", "ntok", "dbid"⟩ rfl rfl rfl rfl rfl rfl

/-! Claim C6 (code bug). -/

/-- C6: evaluation of the code at the failing input. One fetched note whose
dict lacks the id key makes `_process_note` raise before its try block;
the per-note except branch of `execute_sync` then calls
`increment_sync_job_progress(job_id, failed=1)`, whose `processed` parameter
defaults to 1 in the source — so the job row ends with total_notes = 1,
processed_notes = 1 AND failed_notes = 1: processed + failed = 2 > 1 = total,
violating the claimed invariant, while the returned summary of the run itself counts
the same note as 0 processed / 1 failed. -/
theorem C6_progress_overcount_eval :
    (execute_sync c6_w 4 "dave" true c6_inp).map
        (fun res => (res.1, get_sync_job res.2.db 4))
      = .ok (SyncResult.completed 4 1 0 1,
          some ⟨4, "dave", "completed", true, 1, 1, 1, none, some 100⟩) ∧
    ¬ (1 + 1 ≤ 1) := ⟨rfl, by decide⟩

/-! Claim C3. -/

/-- C3 counterexample: with abort interleaved during the awaited
Keep notes request (the scenario spelled out in `c3_db_preAbort` /
`c3_db_final`), the job reaches the terminal status cancelled and is then
changed again to completed by the unconditional finalization of `execute_sync` —
the terminal state is not set exactly once under this interleaving. -/
theorem C3_counterexample :
    (abort_sync c3_db_preAbort 7 50).1 = AbortResult.ok 7 ∧
    (get_sync_job c3_db_afterAbort 7).map SyncJobRec.status = some "cancelled" ∧
    (get_sync_job c3_db_final 7).map SyncJobRec.status = some "completed" :=
  ⟨rfl, rfl, rfl⟩

/-- The loop body keeps the job row present in every branch. -/
lemma process_one_job_present (w : World) (job_id : Nat) (u : String) (note : NoteInput)
    (o : SinkOutcome) (now : Nat) (J : SyncJobRec)
    (hjob : get_sync_job w.db job_id = some J) :
    ∃ Jr, get_sync_job (process_one w job_id u note o now).2.2.db job_id = some Jr := by
  unfold process_one process_note
  cases note.id with
  | none =>
    refine ⟨({ J with processed_notes := J.processed_notes + 1, failed_notes := J.failed_notes + 1 } : SyncJobRec), ?_⟩
    show get_sync_job (increment_sync_job_progress (add_sync_log w.db job_id "ERROR" _ _)
      job_id 1 1).2 job_id = _
    rw [get_sync_job_increment, get_sync_job_add_log, hjob]
    rfl
  | some nid =>
    cases hex : get_sync_record w.db u nid with
    | some ex =>
      cases o with
      | raise msg =>
        simp only [hex]
        refine ⟨({ J with processed_notes := J.processed_notes + 0, failed_notes := J.failed_notes + 1 } : SyncJobRec), ?_⟩
        show get_sync_job (increment_sync_job_progress (add_sync_log w.db job_id "ERROR" _ _)
          job_id 0 1).2 job_id = _
        rw [get_sync_job_increment, get_sync_job_add_log, hjob]
        rfl
      | resp code pid text =>
        by_cases hc : code = 200
        · subst hc
          simp only [hex]
          have hbne : ((200 : Nat) != 200) = false := by decide
          simp only [hbne, Bool.false_eq_true, if_false]
          refine ⟨({ J with processed_notes := J.processed_notes + 1, failed_notes := J.failed_notes + 0 } : SyncJobRec), ?_⟩
          show get_sync_job (increment_sync_job_progress (add_sync_log
            (upsert_sync_state w.db u nid pid note.modified_at now) job_id "INFO" _ _)
            job_id 1 0).2 job_id = _
          rw [get_sync_job_increment, get_sync_job_add_log, get_sync_job_upsert, hjob]
          rfl
        · have hbne : ((code : Nat) != 200) = true := by simp [hc]
          simp only [hex, hbne, if_true]
          refine ⟨({ J with processed_notes := J.processed_notes + 0, failed_notes := J.failed_notes + 1 } : SyncJobRec), ?_⟩
          show get_sync_job (increment_sync_job_progress (add_sync_log w.db job_id "ERROR" _ _)
            job_id 0 1).2 job_id = _
          rw [get_sync_job_increment, get_sync_job_add_log, hjob]
          rfl
    | none =>
      cases o with
      | raise msg =>
        simp only [hex]
        refine ⟨({ J with processed_notes := J.processed_notes + 0, failed_notes := J.failed_notes + 1 } : SyncJobRec), ?_⟩
        show get_sync_job (increment_sync_job_progress (add_sync_log w.db job_id "ERROR" _ _)
          job_id 0 1).2 job_id = _
        rw [get_sync_job_increment, get_sync_job_add_log, hjob]
        rfl
      | resp code pid text =>
        by_cases hc : code = 201
        · subst hc
          simp only [hex]
          have hbne : ((201 : Nat) != 201) = false := by decide
          simp only [hbne, Bool.false_eq_true, if_false]
          refine ⟨({ J with processed_notes := J.processed_notes + 1, failed_notes := J.failed_notes + 0 } : SyncJobRec), ?_⟩
          show get_sync_job (increment_sync_job_progress (add_sync_log
            (upsert_sync_state w.db u nid pid note.modified_at now) job_id "INFO" _ _)
            job_id 1 0).2 job_id = _
          rw [get_sync_job_increment, get_sync_job_add_log, get_sync_job_upsert, hjob]
          rfl
        · have hbne : ((code : Nat) != 201) = true := by simp [hc]
          simp only [hex, hbne, if_true]
          refine ⟨({ J with processed_notes := J.processed_notes + 0, failed_notes := J.failed_notes + 1 } : SyncJobRec), ?_⟩
          show get_sync_job (increment_sync_job_progress (add_sync_log w.db job_id "ERROR" _ _)
            job_id 0 1).2 job_id = _
          rw [get_sync_job_increment, get_sync_job_add_log, hjob]
          rfl

/-- The whole loop keeps the job row present. -/
lemma process_all_job_present (job_id : Nat) (u : String) (sink : Nat → SinkOutcome)
    (now : Nat) : ∀ (notes : List NoteInput) (w : World) (i : Nat) (J : SyncJobRec),
    get_sync_job w.db job_id = some J →
    ∃ Jr, get_sync_job (process_all w job_id u notes sink now i).2.2.db job_id = some Jr := by
  intro notes
  induction notes with
  | nil => intro w i J hjob; exact ⟨J, hjob⟩
  | cons note rest ih =>
    intro w i J hjob
    obtain ⟨J1, hJ1⟩ := process_one_job_present w job_id u note (sink i) now J hjob
    exact ih (process_one w job_id u note (sink i) now).2.2 (i + 1) J1 hJ1

/-- The notes phase always finalizes a present job as completed. -/
lemma sync_notes_phase_status (w1 : World) (job_id : Nat) (u : String)
    (notes : List NoteInput) (sink : Nat → SinkOutcome) (now : Nat) (J : SyncJobRec)
    (hjob : get_sync_job w1.db job_id = some J) :
    (get_sync_job (sync_notes_phase w1 job_id u notes sink now).2.db job_id).map
      SyncJobRec.status = some "completed" := by
  have hjob2 : get_sync_job (add_sync_log
      (update_sync_job w1.db job_id none (some notes.length) none none none none).2
      job_id "INFO" ("Fetched " ++ toString notes.length ++ " notes from Keep") none)
      job_id = some { J with total_notes := notes.length } := by
    rw [get_sync_job_add_log, get_sync_job_update, hjob]
    rfl
  obtain ⟨Jr, hJr⟩ := process_all_job_present job_id u sink now notes
    ⟨add_sync_log
      (update_sync_job w1.db job_id none (some notes.length) none none none none).2
      job_id "INFO" ("Fetched " ++ toString notes.length ++ " notes from Keep") none,
     w1.events⟩ 0 { J with total_notes := notes.length } hjob2
  show ((get_sync_job (add_sync_log (update_sync_job
    (process_all _ job_id u notes sink now 0).2.2.db job_id (some "completed")
    none none none none (some now)).2 job_id "INFO" _ none) job_id).map
    SyncJobRec.status) = _
  rw [get_sync_job_add_log, get_sync_job_update, hJr]
  rfl

/-- The top-level handler always finalizes a present job as failed. -/
lemma sync_handler_status (w' : World) (job_id : Nat) (u : String) (fs : Bool)
    (now : Nat) (msg : String) (J : SyncJobRec)
    (hjob : get_sync_job w'.db job_id = some J) :
    (get_sync_job (sync_handler w' job_id u fs now msg).2.db job_id).map
      SyncJobRec.status = some "failed" := by
  show ((get_sync_job (add_sync_log (update_sync_job w'.db job_id (some "failed")
    none none none (some msg) (some now)).2 job_id "ERROR" _ none) job_id).map
    SyncJobRec.status) = _
  rw [get_sync_job_add_log, get_sync_job_update, hjob]
  rfl

/-- The missing-credentials branch always finalizes a present job as failed. -/
lemma sync_cred_fail_status (w' : World) (job_id : Nat) (u : String)
    (now : Nat) (J : SyncJobRec)
    (hjob : get_sync_job w'.db job_id = some J) :
    (get_sync_job (sync_cred_fail w' job_id u now).2.db job_id).map
      SyncJobRec.status = some "failed" := by
  show ((get_sync_job (add_sync_log (update_sync_job w'.db job_id (some "failed")
    none none none (some ("No credentials found for user " ++ u)) (some now)).2
    job_id "ERROR" _ none) job_id).map SyncJobRec.status) = _
  rw [get_sync_job_add_log, get_sync_job_update, hjob]
  rfl

/-- With credentials but a failing Keep auth HTTP status, `execute_sync` is
the handler on the auth error. -/
lemma execute_sync_auth_status_err (w : World) (job_id : Nat) (u : String) (fs : Bool)
    (inp : SyncInput) (cred : CredentialRec) (dbP dbF : Store)
    (hP : sync_prelude w.db job_id u fs = .ok dbP)
    (hcred : get_credentials w.db u = some cred)
    (hdbF : dbF = add_sync_log dbP job_id "INFO"
      ("Fetching notes from Keep (modified_since="
        ++ toString (compute_modified_since w.db u fs) ++ ")") none)
    (hauth1 : inp.auth.status_code ≠ 200) :
    execute_sync w job_id u fs inp =
      .ok (sync_handler ⟨dbF, w.events ++ [Event.keepAuthCall u]⟩ job_id u fs inp.now
        ("Keep authentication failed: " ++ inp.auth.text)) := by
  rw [execute_sync_with_creds w job_id u fs inp cred dbP dbF hP hcred hdbF,
    fetch_notes_auth_status_err _ u _ inp hauth1]

/-- With credentials, a 200 auth response whose body is not authenticated:
`execute_sync` is the handler on the auth-body error. -/
lemma execute_sync_auth_body_err (w : World) (job_id : Nat) (u : String) (fs : Bool)
    (inp : SyncInput) (cred : CredentialRec) (dbP dbF : Store)
    (hP : sync_prelude w.db job_id u fs = .ok dbP)
    (hcred : get_credentials w.db u = some cred)
    (hdbF : dbF = add_sync_log dbP job_id "INFO"
      ("Fetching notes from Keep (modified_since="
        ++ toString (compute_modified_since w.db u fs) ++ ")") none)
    (hauth1 : inp.auth.status_code = 200)
    (hauth2 : inp.auth.body_status ≠ some "authenticated") :
    execute_sync w job_id u fs inp =
      .ok (sync_handler ⟨dbF, w.events ++ [Event.keepAuthCall u]⟩ job_id u fs inp.now
        ("Keep authentication failed: " ++ (inp.auth.body_error.getD "Unknown error"))) := by
  rw [execute_sync_with_creds w job_id u fs inp cred dbP dbF hP hcred hdbF,
    fetch_notes_auth_body_err _ u _ inp hauth1 hauth2]

lemma abort_sync_terminal (db : Store) (j now : Nat) (J : SyncJobRec)
    (hjob : get_sync_job db j = some J)
    (hterm : J.status = "completed" ∨ J.status = "failed" ∨ J.status = "cancelled") :
    abort_sync db j now = (AbortResult.invalidState J.status, db) := by
  have hc : (["completed", "failed", "cancelled"].contains J.status) = true := by
    rcases hterm with h | h | h <;> rw [h] <;> rfl
  have hred : abort_sync db j now =
      (if ["completed", "failed", "cancelled"].contains J.status then
        (AbortResult.invalidState J.status, db)
      else
        (AbortResult.ok j,
         add_sync_log (update_sync_job db j (some "cancelled") none none none
           (some "Job cancelled by user") (some now)).2
           j "WARNING" "Sync job cancelled by user" none)) := by
    unfold abort_sync
    rw [hjob]
  rw [hred, if_pos hc]

/-- C3 (amended): job status transitions of a solo run are strictly ordered —
the created row is queued, the prelude leaves it running, and a completed
`execute_sync` leaves it in exactly one terminal status (completed or
failed); `abort_sync` refuses to change a job already in a terminal status.
However the terminal status is not set exactly once under arbitrary
interleavings: as `C3_counterexample` shows, an abort interleaved during the
run is overwritten by the unconditional finalization of `execute_sync`. -/
theorem C3_lifecycle_amended :
    (∀ (db : Store) (j : Nat) (uu : String) (fss : Bool),
      get_sync_job db j = none →
      ∃ db1, create_sync_job db j uu fss = .ok db1 ∧
        (get_sync_job db1 j).map SyncJobRec.status = some "queued") ∧
    (∀ (db : Store) (j : Nat) (uu : String) (fss : Bool) (db' : Store),
      get_sync_job db j = none → sync_prelude db j uu fss = .ok db' →
      (get_sync_job db' j).map SyncJobRec.status = some "running") ∧
    (∀ (w : World) (j : Nat) (uu : String) (fss : Bool) (inp : SyncInput),
      get_sync_job w.db j = none →
      ∃ res, execute_sync w j uu fss inp = .ok res ∧
        ((get_sync_job res.2.db j).map SyncJobRec.status = some "completed" ∨
         (get_sync_job res.2.db j).map SyncJobRec.status = some "failed")) ∧
    (∀ (db : Store) (j now : Nat) (J : SyncJobRec),
      get_sync_job db j = some J →
      (J.status = "completed" ∨ J.status = "failed" ∨ J.status = "cancelled") →
      abort_sync db j now = (AbortResult.invalidState J.status, db)) := by
  refine ⟨?_, ?_, ?_, ?_⟩
  · intro db j uu fss hfresh
    have hfresh' : db.sync_jobs.find? (fun r => r.job_id == j) = none := hfresh
    have hc : create_sync_job db j uu fss =
        .ok { db with sync_jobs := db.sync_jobs ++
          [⟨j, uu, "queued", fss, 0, 0, 0, none, none⟩] } := by
      unfold create_sync_job
      rw [hfresh']
    refine ⟨_, hc, ?_⟩
    rw [get_sync_job_create db j uu fss _ hc]
    rfl
  · intro db j uu fss db' hfresh hP
    rw [sync_prelude_job db j uu fss db' hfresh hP]
    rfl
  · intro w j uu fss inp hfresh
    have hP := sync_prelude_ok w.db j uu fss hfresh
    cases hcred : get_credentials w.db uu with
    | none =>
      obtain ⟨dbP, hPP, hexec⟩ := execute_sync_no_creds w j uu fss inp hfresh hcred
      refine ⟨_, hexec, Or.inr ?_⟩
      exact sync_cred_fail_status ⟨dbP, w.events⟩ j uu inp.now _
        (sync_prelude_job w.db j uu fss dbP hfresh hPP)
    | some cred =>
      by_cases h1 : inp.auth.status_code = 200
      · by_cases h2 : inp.auth.body_status = some "authenticated"
        · by_cases h3 : inp.notesResp.status_code = 200
          · have hexec := execute_sync_notes_ok w j uu fss inp cred _ _ hP hcred rfl
              h1 h2 h3
            refine ⟨_, hexec, Or.inl ?_⟩
            refine sync_notes_phase_status _ j uu _ inp.sink inp.now
              ⟨j, uu, "running", fss, 0, 0, 0, none, none⟩ ?_
            show get_sync_job (add_sync_log _ j "INFO" _ none) j = _
            rw [get_sync_job_add_log]
            exact sync_prelude_job w.db j uu fss _ hfresh hP
          · have hexec := execute_sync_notes_err w j uu fss inp cred _ _ hP hcred rfl
              h1 h2 h3
            refine ⟨_, hexec, Or.inr ?_⟩
            refine sync_handler_status _ j uu fss inp.now _
              ⟨j, uu, "running", fss, 0, 0, 0, none, none⟩ ?_
            show get_sync_job (add_sync_log _ j "INFO" _ none) j = _
            rw [get_sync_job_add_log]
            exact sync_prelude_job w.db j uu fss _ hfresh hP
        · have hexec := execute_sync_auth_body_err w j uu fss inp cred _ _ hP hcred rfl
            h1 h2
          refine ⟨_, hexec, Or.inr ?_⟩
          refine sync_handler_status _ j uu fss inp.now _
            ⟨j, uu, "running", fss, 0, 0, 0, none, none⟩ ?_
          show get_sync_job (add_sync_log _ j "INFO" _ none) j = _
          rw [get_sync_job_add_log]
          exact sync_prelude_job w.db j uu fss _ hfresh hP
      · have hexec := execute_sync_auth_status_err w j uu fss inp cred _ _ hP hcred rfl h1
        refine ⟨_, hexec, Or.inr ?_⟩
        refine sync_handler_status _ j uu fss inp.now _
          ⟨j, uu, "running", fss, 0, 0, 0, none, none⟩ ?_
        show get_sync_job (add_sync_log _ j "INFO" _ none) j = _
        rw [get_sync_job_add_log]
        exact sync_prelude_job w.db j uu fss _ hfresh hP
  · intro db j now J hjob hterm
    exact abort_sync_terminal db j now J hjob hterm

/-- C3 witness: on the empty store, creating job 7 leaves it queued, a full
run leaves it in a terminal status, and aborting an already-completed job 7
is refused without change. -/
theorem C3_witness :
    (∃ db1, create_sync_job ⟨[], [], [], []⟩ 7 "carol" true = .ok db1 ∧
      (get_sync_job db1 7).map SyncJobRec.status = some "queued") ∧
    (∃ res, execute_sync ⟨⟨[], [], [], []⟩, []⟩ 7 "carol" true c5_inp = .ok res ∧
      ((get_sync_job res.2.db 7).map SyncJobRec.status = some "completed" ∨
       (get_sync_job res.2.db 7).map SyncJobRec.status = some "failed")) ∧
    abort_sync ⟨[⟨7, "carol", "completed", true, 0, 0, 0, none, none⟩], [], [], []⟩ 7 9
      = (AbortResult.invalidState "completed",
         ⟨[⟨7, "carol", "completed", true, 0, 0, 0, none, none⟩], [], [], []⟩) := by
  have h := C3_lifecycle_amended
  exact ⟨h.1 ⟨[], [], [], []⟩ 7 "carol" true rfl,
    h.2.2.1 ⟨⟨[], [], [], []⟩, []⟩ 7 "carol" true c5_inp rfl,
    h.2.2.2 ⟨[⟨7, "carol", "completed", true, 0, 0, 0, none, none⟩], [], [], []⟩ 7 9
      ⟨7, "carol", "completed", true, 0, 0, 0, none, none⟩ rfl (Or.inl rfl)⟩

end Keep2Notion
